import Mathlib

/-!
Verification of core components of the gameroy Game Boy emulator.

The definitions below are shallow embeddings of the Rust source:
machine integers (u8/u16/u64) are modelled as `Nat` with explicit masking
or `% 2 ^ 64` where the source relies on wrap-around, fixed arrays as
`List Nat`, and the stateful update functions as explicit state-passing
functions.  Each definition keeps the name and the structure of the Rust
item it embeds (file and function named in its doc comment).
-/

/-- Truncation to 64 bits: the semantics of `u64` arithmetic. -/
def w64 (n : Nat) : Nat := n % 2 ^ 64

/-- `u64` wrapping subtraction `a - b`. -/
def wsub (a b : Nat) : Nat := (a + 2 ^ 64 - b % 2 ^ 64) % 2 ^ 64

/-!
## Pixel FIFO (src/core/src/gameboy/ppu.rs, `PixelFifo`)

The queue is a 16-entry circular buffer; `head` is the next position to
push, `tail` the next position to pop.
-/

/-- The `PixelFifo` struct of src/core/src/gameboy/ppu.rs. -/
structure PixelFifo where
  queue : List Nat
  head : Nat
  tail : Nat
  deriving Repr, DecidableEq

/-- `PixelFifo::len`: number of live entries between tail and head. -/
def PixelFifo.len (f : PixelFifo) : Nat :=
  if f.tail ≤ f.head then f.head - f.tail else 16 - f.tail + f.head

/-- `PixelFifo::is_empty`. -/
def PixelFifo.is_empty (f : PixelFifo) : Bool := f.head == f.tail

/-- The closure `pixel` of `PixelFifo::push_sprite`: a 2-bit color from the
two tile-data bytes at bit `x`, with the background-priority flag in bit 3
and the palette in bit 4. -/
def spritePixel (tileLow tileHight : Nat) (palette backgroundPriority : Bool) (x : Nat) : Nat :=
  (((tileHight >>> x) &&& 0x01) <<< 1) ||| ((tileLow >>> x) &&& 0x01)
    ||| ((if backgroundPriority then 1 else 0) <<< 3)
    ||| ((if palette then 1 else 0) <<< 4)

/-- The first loop of `PixelFifo::push_sprite`: walk from `cursor` towards
`head`, consuming `x`, overwriting an existing entry only when its low two
bits are zero.  Returns the new queue and the remaining `x`. -/
def overwriteLoop (head : Nat) (px : Nat → Nat) :
    List Nat → Nat → Nat → List Nat × Nat
  | queue, _cursor, 0 => (queue, 0)
  | queue, cursor, x + 1 =>
    if cursor = head then (queue, x + 1)
    else
      let queue' := if queue.getD cursor 0 &&& 0b11 = 0 then queue.set cursor (px x) else queue
      overwriteLoop head px queue' ((cursor + 1) % 16) x

/-- The second loop of `PixelFifo::push_sprite`: append the remaining `x`
pixels (`px (x-1)`, …, `px 0`) at `head`, advancing it modulo 16. -/
def appendLoop (px : Nat → Nat) : List Nat → Nat → Nat → List Nat × Nat
  | queue, head, 0 => (queue, head)
  | queue, head, x + 1 => appendLoop px (queue.set head (px x)) ((head + 1) % 16) x

/-- `PixelFifo::push_sprite` (src/core/src/gameboy/ppu.rs, lines 89-120). -/
def PixelFifo.push_sprite (f : PixelFifo) (tileLow tileHight : Nat)
    (palette backgroundPriority : Bool) : PixelFifo :=
  let px := spritePixel tileLow tileHight palette backgroundPriority
  let ow := overwriteLoop f.head px f.queue f.tail 8
  let ap := appendLoop px ow.1 f.head ow.2
  { queue := ap.1, head := ap.2, tail := f.tail }

/-- Ring distance from `c` to `h` in the 16-slot circular buffer. -/
def ringDist (c h : Nat) : Nat := (h + 16 - c % 16) % 16

/-- Entry `i` of the FIFO counted from the tail. -/
def PixelFifo.entry (f : PixelFifo) (i : Nat) : Nat :=
  f.queue.getD ((f.tail + i) % 16) 0

/-- A concrete FIFO used to witness the push-sprite theorem. -/
def fifo0 : PixelFifo :=
  { queue := [1, 0, 2, 0, 0, 0, 0, 0, 0, 0, 0, 0, 0, 0, 0, 0], head := 4, tail := 0 }

/-!
## OAM search (src/core/src/gameboy/ppu.rs, `Ppu::search_objects`)
-/

/-- The `Sprite` struct of src/core/src/gameboy/ppu.rs (all fields bytes). -/
structure Sprite where
  sx : Nat
  sy : Nat
  tile : Nat
  flags : Nat
  deriving Repr, DecidableEq

/-- The overlap test of `Ppu::search_objects`: keep a sprite for scanline
`ly` when `ly + 16` lies in `[sy, sy + spriteHeight)` (computed in u16, no
overflow for byte inputs). -/
def spriteMatches (ly spriteHeight : Nat) (s : Sprite) : Bool :=
  decide (s.sy ≤ ly + 16) && decide (ly + 16 < s.sy + spriteHeight)

/-- The scan loop of `Ppu::search_objects`: walk OAM entries in index
order, append matches to the buffer, and break once 10 have been kept. -/
def searchLoop (ly spriteHeight : Nat) : List Sprite → List Sprite → List Sprite
  | acc, [] => acc
  | acc, s :: rest =>
    let acc' := if spriteMatches ly spriteHeight s then acc ++ [s] else acc
    if acc'.length = 10 then acc' else searchLoop ly spriteHeight acc' rest

/-- One step of a stable insertion sort: the new element moves in front of
an existing one only when strictly smaller, so equal keys keep their
original relative order (the guarantee of Rust's stable `sort_by_key`). -/
def insertStable {α : Type} (le : α → α → Bool) (a : α) : List α → List α
  | [] => [a]
  | b :: l => if le a b && ! le b a then a :: b :: l else b :: insertStable le a l

/-- Stable insertion sort (extensionally equal to any stable sort, hence to
Rust's stable `slice::sort_by_key`). -/
def sortStable {α : Type} (le : α → α → Bool) : List α → List α
  | [] => []
  | a :: l => insertStable le a (sortStable le l)

/-- The sort key of `Ppu::search_objects`: the bitwise complement `!sx` of
the byte-valued X coordinate, compared ascending, i.e. X descending. -/
def notSxLe (a b : Sprite) : Bool := decide (255 - a.sx % 256 ≤ 255 - b.sx % 256)

/-- `Ppu::search_objects` (src/core/src/gameboy/ppu.rs, lines 770-798):
scan the 40 OAM sprites with height 16 when LCDC bit 2 is set and 8
otherwise, keep the first up to 10 overlapping LY, then reverse the buffer
and stably sort it by the bitwise complement of the X coordinate
(`sort_by_key(|x| !x.sx)`), which orders X descending. -/
def search_objects (oam40 : List Sprite) (ly lcdc : Nat) : List Sprite :=
  let spriteHeight := if lcdc &&& 0x04 ≠ 0 then 16 else 8
  let buf := searchLoop ly spriteHeight [] oam40
  sortStable notSxLe buf.reverse

/-- Concrete OAM content used to witness the search theorem. -/
def oam0 : List Sprite :=
  [⟨5, 16, 0, 0⟩, ⟨200, 12, 1, 0⟩, ⟨0, 0, 2, 0⟩, ⟨30, 16, 3, 0⟩, ⟨30, 10, 4, 0⟩]

/-!
## OAM DMA (src/core/src/gameboy/ppu.rs, `Ppu::update_dma`, `Ppu::start_dma`,
`Ppu::read_oam`)
-/

/-- The DMA-related portion of the `Ppu` state together with the OAM bytes
and the mode-driven OAM read block (the rest of `Ppu::update`, which drives
`oam_read_block`, is orthogonal to the DMA and kept abstract as a field). -/
structure DmaState where
  dma_started : Nat
  dma_running : Bool
  dma_block_oam : Bool
  oam_read_block : Bool
  oam : List Nat
  deriving Repr, DecidableEq

/-- `Ppu::update_dma` (src/core/src/gameboy/ppu.rs, lines 800-828) at
`clock_count`: while a DMA runs, the OAM block is raised once 8 T-cycles
have elapsed since the request and, after `8 + 160*4` cycles, the transfer
finishes: the block is dropped and the 160 source bytes (read through the
bus, passed here as `source`) are copied into OAM. -/
def update_dma (source : List Nat) (p : DmaState) (clock_count : Nat) : DmaState :=
  if p.dma_running then
    let elapsed := wsub clock_count p.dma_started
    let p1 := if elapsed ≥ 8 then { p with dma_block_oam := true } else p
    if elapsed ≥ 8 + 160 * 4 then
      { p1 with dma_block_oam := false, dma_running := false, oam := source }
    else p1
  else p

/-- `Ppu::start_dma` (lines 830-843): record the request clock; if a DMA
was already running, block OAM immediately; mark the DMA as running. -/
def start_dma (p : DmaState) (clock_count : Nat) : DmaState :=
  let p1 := { p with dma_started := clock_count }
  let p2 := if p1.dma_running then { p1 with dma_block_oam := true } else p1
  { p2 with dma_running := true }

/-- `Ppu::read_oam` (lines 845-853): the bus first catches the PPU (hence
the DMA flags) up to the current clock, then the read yields 0xFF when
either the DMA block or the mode-driven block is up. -/
def read_oam (source : List Nat) (p : DmaState) (clock_count address : Nat) : Nat :=
  let p1 := update_dma source p clock_count
  if p1.dma_block_oam || p1.oam_read_block then 0xff
  else p1.oam.getD (address - 0xFE00) 0

/-- An idle PPU-DMA state whose first OAM byte is 0x12. -/
def dmaIdle : DmaState :=
  { dma_started := 0x7fffffffffffffff, dma_running := false, dma_block_oam := false,
    oam_read_block := false, oam := [0x12] }

/-!
## JIT entry guard (src/jit/src/lib.rs, `JitCompiler::interpret_block`)
-/

/-- `CpuState` of the SM83 core (gameroy `cpu::CpuState`). -/
inductive CpuState where
  | Running
  | Halted
  | Stopped
  | HaltBug
  deriving Repr, DecidableEq

/-- `ImeState`: the interrupt-master-enable latch of the CPU. -/
inductive ImeState where
  | Disabled
  | ToBeEnable
  | Enabled
  deriving Repr, DecidableEq

/-- The parts of the `GameBoy` state read by the dispatch guard of
`JitCompiler::interpret_block`. -/
structure JitGb where
  cpu_state : CpuState
  cpu_ime : ImeState
  clock_count : Nat
  next_interrupt : Nat
  deriving Repr, DecidableEq

/-- The per-block metadata read by the guard (`Block` in src/jit/src/lib.rs). -/
structure JitBlock where
  initial_block_clock_cycles : Nat
  deriving Repr, DecidableEq

/-- The dispatch decision of `JitCompiler::interpret_block`
(src/jit/src/lib.rs, lines 212-269): `true` when the compiled block's
native code is invoked via `Block::call`, `false` when the interpreter
fallback loop runs instead.  The guard is
`Some(block) if gb.cpu.state == CpuState::Running && (gb.clock_count +
block.initial_block_clock_cycles as u64 + 4) < next_interrupt`. -/
def interpret_block_calls_native (block : Option JitBlock) (gb : JitGb) : Bool :=
  match block with
  | some b =>
    decide (gb.cpu_state = CpuState.Running) &&
      decide (w64 (gb.clock_count + b.initial_block_clock_cycles + 4) < gb.next_interrupt)
  | none => false

/-!
## Clock-rewinding PPU write handlers (src/core/src/gameboy/ppu.rs,
`Ppu::write` for 0xFF40/0xFF4B and `write_pallete_conflict`)

Only the clock bookkeeping of the handlers is modelled: the register
assignments between the update calls touch neither `clock_count` nor
`last_clock_count`.  Each call to `gb.update_ppu()` enters `Ppu::update`,
which catches the PPU up by setting `last_clock_count := clock_count`.
-/

/-- The clock bookkeeping state: the global clock and the PPU's
`last_clock_count`. -/
structure RewindGb where
  clock_count : Nat
  ppu_last_clock_count : Nat
  deriving Repr, DecidableEq

/-- One entry to `Ppu::update` (line 890 sets
`ppu.last_clock_count = gb.clock_count`); the returned pair logs the clock
and the previous `last_clock_count` at the entry. -/
def ppuUpdateEntry (g : RewindGb) : RewindGb × (Nat × Nat) :=
  ({ g with ppu_last_clock_count := g.clock_count },
   (g.clock_count, g.ppu_last_clock_count))

/-- Clock bookkeeping of the LCDC handler (`Ppu::write`, address 0x40):
rewind by 2, update, advance 1, update, advance 1, update. -/
def write_lcdc_clocks (g : RewindGb) : RewindGb × List (Nat × Nat) :=
  let ga := { g with clock_count := wsub g.clock_count 2 }
  let r1 := ppuUpdateEntry ga
  let gc := { r1.1 with clock_count := w64 (r1.1.clock_count + 1) }
  let r2 := ppuUpdateEntry gc
  let ge := { r2.1 with clock_count := w64 (r2.1.clock_count + 1) }
  let r3 := ppuUpdateEntry ge
  (r3.1, [r1.2, r2.2, r3.2])

/-- Clock bookkeeping of `write_pallete_conflict` (lines 1763-1784, the
BGP/OBP0/OBP1 handler): rewind by 2, update (OR-write), advance 1, update
(overwrite), advance 1. -/
def write_pallete_conflict_clocks (g : RewindGb) : RewindGb × List (Nat × Nat) :=
  let ga := { g with clock_count := wsub g.clock_count 2 }
  let r1 := ppuUpdateEntry ga
  let gc := { r1.1 with clock_count := w64 (r1.1.clock_count + 1) }
  let r2 := ppuUpdateEntry gc
  let ge := { r2.1 with clock_count := w64 (r2.1.clock_count + 1) }
  (ge, [r1.2, r2.2])

/-- Clock bookkeeping of the WX handler (`Ppu::write`, address 0x4B):
update, advance 1, update, rewind 1. -/
def write_wx_clocks (g : RewindGb) : RewindGb × List (Nat × Nat) :=
  let r1 := ppuUpdateEntry g
  let gc := { r1.1 with clock_count := w64 (r1.1.clock_count + 1) }
  let r2 := ppuUpdateEntry gc
  let ge := { r2.1 with clock_count := wsub r2.1.clock_count 1 }
  (ge, [r1.2, r2.2])

/-!
## Sound controller (src/core/src/gameboy/sound_controller.rs)

The `SoundController` struct, its `Default`, the optimised `update`, the
per-cycle reference `update_ref`, `run_timers`, `calculate_frequency` and
the NR52 write handler are embedded below.  u8/u16/u64 values are `Nat`
with masking (`% 65536`, `w64`, `wsub`) exactly where the Rust types wrap.
-/

/-- `CLOCK_SPEED` (src/core/src/consts.rs): 4,194,304 T-cycles per second. -/
def CLOCK_SPEED : Nat := 4194304

/-- `u64::MAX`. -/
def u64Max : Nat := 2 ^ 64 - 1

/-- `u16::from_be_bytes([hi, lo])`. -/
def u16_be (hi lo : Nat) : Nat := (hi <<< 8) ||| lo

/-- The `SoundController` struct (fields in declaration order). -/
structure SoundController where
  nr10 : Nat
  nr11 : Nat
  nr12 : Nat
  nr13 : Nat
  nr14 : Nat
  nr21 : Nat
  nr22 : Nat
  nr23 : Nat
  nr24 : Nat
  nr30 : Nat
  nr31 : Nat
  nr32 : Nat
  nr33 : Nat
  nr34 : Nat
  ch3_wave_pattern : List Nat
  nr41 : Nat
  nr42 : Nat
  nr43 : Nat
  nr44 : Nat
  nr50 : Nat
  nr51 : Nat
  on' : Bool
  frame_sequencer_step : Nat
  ch1_channel_enable : Bool
  ch1_length_timer : Nat
  ch1_sweep_enabled : Bool
  ch1_shadow_freq : Nat
  ch1_sweep_timer : Nat
  ch1_has_done_sweep_calculation : Bool
  ch1_frequency_timer : Nat
  ch1_wave_duty_position : Nat
  ch1_current_volume : Nat
  ch1_env_period_timer : Nat
  ch2_channel_enable : Bool
  ch2_length_timer : Nat
  ch2_frequency_timer : Nat
  ch2_wave_duty_position : Nat
  ch2_current_volume : Nat
  ch2_env_period_timer : Nat
  ch3_channel_enable : Bool
  ch3_length_timer : Nat
  ch3_frequency_timer : Nat
  ch3_wave_position : Nat
  ch3_sample_buffer : Nat
  ch3_wave_just_read : Bool
  ch4_channel_enable : Bool
  ch4_length_timer : Nat
  ch4_current_volume : Nat
  ch4_env_period_timer : Nat
  ch4_lfsr : Nat
  ch4_frequency_timer : Nat
  output : List Nat
  last_clock_count : Nat
  sample_frequency : Nat
  sample_mod : Nat
  deriving Repr, DecidableEq

/-- The `PartialEq` implementation (lines 117-175): every field except
`output`, `sample_frequency` and `sample_mod` is compared. -/
def SoundController.peq (a b : SoundController) : Prop :=
  a.nr10 = b.nr10 ∧ a.nr11 = b.nr11 ∧ a.nr12 = b.nr12 ∧ a.nr13 = b.nr13 ∧
  a.nr14 = b.nr14 ∧ a.nr21 = b.nr21 ∧ a.nr22 = b.nr22 ∧ a.nr23 = b.nr23 ∧
  a.nr24 = b.nr24 ∧ a.nr30 = b.nr30 ∧ a.nr31 = b.nr31 ∧ a.nr32 = b.nr32 ∧
  a.nr33 = b.nr33 ∧ a.nr34 = b.nr34 ∧ a.ch3_wave_pattern = b.ch3_wave_pattern ∧
  a.nr41 = b.nr41 ∧ a.nr42 = b.nr42 ∧ a.nr43 = b.nr43 ∧ a.nr44 = b.nr44 ∧
  a.nr50 = b.nr50 ∧ a.nr51 = b.nr51 ∧ a.on' = b.on' ∧
  a.frame_sequencer_step = b.frame_sequencer_step ∧
  a.ch1_channel_enable = b.ch1_channel_enable ∧
  a.ch1_length_timer = b.ch1_length_timer ∧
  a.ch1_sweep_enabled = b.ch1_sweep_enabled ∧
  a.ch1_shadow_freq = b.ch1_shadow_freq ∧
  a.ch1_sweep_timer = b.ch1_sweep_timer ∧
  a.ch1_has_done_sweep_calculation = b.ch1_has_done_sweep_calculation ∧
  a.ch1_frequency_timer = b.ch1_frequency_timer ∧
  a.ch1_wave_duty_position = b.ch1_wave_duty_position ∧
  a.ch1_current_volume = b.ch1_current_volume ∧
  a.ch1_env_period_timer = b.ch1_env_period_timer ∧
  a.ch2_channel_enable = b.ch2_channel_enable ∧
  a.ch2_length_timer = b.ch2_length_timer ∧
  a.ch2_frequency_timer = b.ch2_frequency_timer ∧
  a.ch2_wave_duty_position = b.ch2_wave_duty_position ∧
  a.ch2_current_volume = b.ch2_current_volume ∧
  a.ch2_env_period_timer = b.ch2_env_period_timer ∧
  a.ch3_channel_enable = b.ch3_channel_enable ∧
  a.ch3_length_timer = b.ch3_length_timer ∧
  a.ch3_frequency_timer = b.ch3_frequency_timer ∧
  a.ch3_wave_position = b.ch3_wave_position ∧
  a.ch3_sample_buffer = b.ch3_sample_buffer ∧
  a.ch3_wave_just_read = b.ch3_wave_just_read ∧
  a.ch4_channel_enable = b.ch4_channel_enable ∧
  a.ch4_length_timer = b.ch4_length_timer ∧
  a.ch4_current_volume = b.ch4_current_volume ∧
  a.ch4_env_period_timer = b.ch4_env_period_timer ∧
  a.ch4_lfsr = b.ch4_lfsr ∧
  a.ch4_frequency_timer = b.ch4_frequency_timer ∧
  a.last_clock_count = b.last_clock_count

/-- `Default::default()` for `SoundController` (lines 245-308). -/
def SoundController.defaultState : SoundController where
  nr10 := 0
  nr11 := 0
  nr12 := 0
  nr13 := 0
  nr14 := 0
  nr21 := 0
  nr22 := 0
  nr23 := 0
  nr24 := 0
  nr30 := 0
  nr31 := 0
  nr32 := 0
  nr33 := 0
  nr34 := 0
  ch3_wave_pattern :=
    [0x84, 0x40, 0x43, 0xAA, 0x2D, 0x78, 0x92, 0x3C,
     0x60, 0x59, 0x59, 0xB0, 0x34, 0xB8, 0x2E, 0xDA]
  nr41 := 0
  nr42 := 0
  nr43 := 0
  nr44 := 0
  nr50 := 0
  nr51 := 0
  on' := false
  frame_sequencer_step := 0
  ch1_channel_enable := false
  ch1_length_timer := 0
  ch1_sweep_enabled := false
  ch1_shadow_freq := 0
  ch1_sweep_timer := 0
  ch1_has_done_sweep_calculation := false
  ch1_frequency_timer := 0
  ch1_wave_duty_position := 0
  ch1_current_volume := 0
  ch1_env_period_timer := 0
  ch2_channel_enable := false
  ch2_length_timer := 0
  ch2_frequency_timer := 0
  ch2_wave_duty_position := 0
  ch2_current_volume := 0
  ch2_env_period_timer := 0
  ch3_channel_enable := false
  ch3_length_timer := 0
  ch3_frequency_timer := 0
  ch3_wave_position := 0
  ch3_sample_buffer := 0
  ch3_wave_just_read := false
  ch4_channel_enable := false
  ch4_length_timer := 0
  ch4_current_volume := 0
  ch4_env_period_timer := 0
  ch4_lfsr := 0
  ch4_frequency_timer := 0
  output := []
  last_clock_count := 0
  sample_frequency := 0
  sample_mod := 0

/-- `WAVE_DUTY_TABLE` (line 310). -/
def WAVE_DUTY_TABLE : List Nat := [0b00000001, 0b00000011, 0b00001111, 0b11111100]

/-- The locals derived from the registers at the top of both
`SoundController::update` and `SoundController::update_ref`
(lines 355-391 / 731-767); none of the source registers except NR13/NR14
changes during an update, so these stay fixed (`ch1_freq` is the one
loop-carried value and is kept separate). -/
structure ApuConsts where
  ch1_duty : Nat
  ch1_sweep_period : Nat
  ch1_sweep_direction : Bool
  ch1_sweep_shift : Nat
  ch1_env_period : Nat
  ch1_env_direction : Bool
  ch2_duty : Nat
  ch2_freq : Nat
  ch2_env_period : Nat
  ch2_env_direction : Bool
  ch3_output_level : Nat
  ch3_freq : Nat
  ch4_env_period : Nat
  ch4_env_direction : Bool
  ch4_shift_amount : Nat
  ch4_counter_width : Bool
  ch4_divisor : Nat
  volume_left : Nat
  ch1_left : Bool
  ch2_left : Bool
  ch3_left : Bool
  ch4_left : Bool
  volume_right : Nat
  ch1_right : Bool
  ch2_right : Bool
  ch3_right : Bool
  ch4_right : Bool
  deriving Repr, DecidableEq

/-- Compute the `ApuConsts` from the registers. -/
def apuConsts (s : SoundController) : ApuConsts where
  ch1_duty := (s.nr11 >>> 6) &&& 0x3
  ch1_sweep_period := (s.nr10 &&& 0x70) >>> 4
  ch1_sweep_direction := s.nr10 &&& 0x08 ≠ 0
  ch1_sweep_shift := s.nr10 &&& 0x7
  ch1_env_period := s.nr12 &&& 0x7
  ch1_env_direction := s.nr12 &&& 0x08 ≠ 0
  ch2_duty := (s.nr21 >>> 6) &&& 0x3
  ch2_freq := u16_be s.nr24 s.nr23 &&& 0x07FF
  ch2_env_period := s.nr22 &&& 0x7
  ch2_env_direction := s.nr22 &&& 0x08 ≠ 0
  ch3_output_level := [4, 0, 1, 2].getD ((s.nr32 &&& 0x60) >>> 5) 0
  ch3_freq := u16_be s.nr34 s.nr33 &&& 0x07FF
  ch4_env_period := s.nr42 &&& 0x7
  ch4_env_direction := s.nr42 &&& 0x08 ≠ 0
  ch4_shift_amount := (s.nr43 &&& 0xF0) >>> 4
  ch4_counter_width := s.nr43 &&& 0x08 ≠ 0
  ch4_divisor := [8, 16, 32, 48, 64, 80, 96, 112].getD (s.nr43 &&& 0x07) 0
  volume_left := (s.nr50 &&& 0x70) >>> 4
  ch1_left := s.nr51 &&& 0x10 ≠ 0
  ch2_left := s.nr51 &&& 0x20 ≠ 0
  ch3_left := s.nr51 &&& 0x40 ≠ 0
  ch4_left := s.nr51 &&& 0x80 ≠ 0
  volume_right := s.nr50 &&& 0x7
  ch1_right := s.nr51 &&& 0x01 ≠ 0
  ch2_right := s.nr51 &&& 0x02 ≠ 0
  ch3_right := s.nr51 &&& 0x04 ≠ 0
  ch4_right := s.nr51 &&& 0x08 ≠ 0

/-- Frequency-timer reload value of channels 1 and 2: `(0x07FF ^ freq) * 2`. -/
def dutyReload (freq : Nat) : Nat := (0x7FF ^^^ freq) * 2

/-- One LFSR shift of channel 4 (both loops, lines 690-695 / 809-814). -/
def ch4LfsrStep (width : Bool) (lf : Nat) : Nat :=
  let xr : Bool := decide (lf &&& 0x1 ≠ 0) != decide (lf &&& 0x2 ≠ 0)
  let b := if xr then 1 else 0
  let lf2 := (lf >>> 1) ||| (b <<< 14)
  if width then (lf2 &&& 0xFFBF) ||| (b <<< 6) else lf2

/-- One wave-position advance of channel 3 on the (position, sample
buffer, just-read) triple (both loops, lines 669-675 / 791-797). -/
def ch3Advance (wave : List Nat) (pbj : Nat × Nat × Bool) : Nat × Nat × Bool :=
  let p := (pbj.1 + 1) % 32
  (p, (wave.getD (p / 2) 0 >>> (if p % 2 = 0 then 4 else 0)) &&& 0xF, true)

/-- One 2-T-cycle tick of a duty channel's frequency timer
(`update_ref`, lines 771-787): reload and advance on zero, else count
down. -/
def dutyTick (freq timer duty : Nat) : Nat × Nat :=
  if timer = 0 then (dutyReload freq, (duty + 1) % 8) else (timer - 1, duty)

/-- One tick of channel 3 (lines 789-804): returns
(timer, position, sample buffer, just-read). -/
def ch3Tick (wave : List Nat) (freq timer pos buf : Nat) : Nat × Nat × Nat × Bool :=
  if timer = 0 then
    let a := ch3Advance wave (pos, buf, false)
    (0x7FF ^^^ freq, a.1, a.2.1, a.2.2)
  else (timer - 1, pos, buf, false)

/-- One tick of channel 4 (lines 806-818): returns (timer, LFSR). -/
def ch4Tick (divisor shift : Nat) (width : Bool) (timer lfsr : Nat) : Nat × Nat :=
  if timer = 0 then ((divisor <<< shift) % 65536, ch4LfsrStep width lfsr)
  else (timer - 1, lfsr)

/-- The per-channel while loop of `run_timers`
(`while timer < cycles { cycles -= timer + 1; timer = reload; advance }`),
run with fuel ≥ cycles (the loop consumes at least one cycle per
iteration); returns (timer, remaining cycles, aux state). -/
def timerWhile {α : Type} (reload : Nat) (advance : α → α) :
    Nat → Nat → Nat → α → Nat × Nat × α
  | 0, timer, cycles, a => (timer, cycles, a)
  | fuel + 1, timer, cycles, a =>
    if timer < cycles then timerWhile reload advance fuel reload (cycles - (timer + 1)) (advance a)
    else (timer, cycles, a)

/-- `SoundController::run_timers` (lines 632-699): run the four channel
frequency timers for `cycles` 2-T-cycle steps in bulk. -/
def SoundController.run_timers (s : SoundController) (cycles ch1_freq ch2_freq ch3_freq
    ch4_divisor ch4_shift_amount : Nat) (ch4_counter_width : Bool) : SoundController :=
  let s :=
    if s.ch1_channel_enable then
      let r := timerWhile (dutyReload ch1_freq) (fun d => (d + 1) % 8) cycles
        s.ch1_frequency_timer cycles s.ch1_wave_duty_position
      { s with ch1_frequency_timer := r.1 - r.2.1, ch1_wave_duty_position := r.2.2 }
    else s
  let s :=
    if s.ch2_channel_enable then
      let r := timerWhile (dutyReload ch2_freq) (fun d => (d + 1) % 8) cycles
        s.ch2_frequency_timer cycles s.ch2_wave_duty_position
      { s with ch2_frequency_timer := r.1 - r.2.1, ch2_wave_duty_position := r.2.2 }
    else s
  let s :=
    if s.ch3_channel_enable then
      let r := timerWhile (0x7FF ^^^ ch3_freq) (ch3Advance s.ch3_wave_pattern) cycles
        s.ch3_frequency_timer cycles (s.ch3_wave_position, s.ch3_sample_buffer, s.ch3_wave_just_read)
      if r.2.1 ≥ 1 then
        { s with ch3_frequency_timer := r.1 - r.2.1, ch3_wave_position := r.2.2.1,
                 ch3_sample_buffer := r.2.2.2.1, ch3_wave_just_read := false }
      else
        { s with ch3_frequency_timer := r.1, ch3_wave_position := r.2.2.1,
                 ch3_sample_buffer := r.2.2.2.1, ch3_wave_just_read := r.2.2.2.2 }
    else { s with ch3_wave_just_read := false }
  let s :=
    if s.ch4_channel_enable then
      let r := timerWhile ((ch4_divisor <<< ch4_shift_amount) % 65536)
        (ch4LfsrStep ch4_counter_width) cycles s.ch4_frequency_timer cycles s.ch4_lfsr
      { s with ch4_frequency_timer := r.1 - r.2.1, ch4_lfsr := r.2.2 }
    else s
  s

/-- The inner `env` function of the volume-envelope step
(lines 477-502 / 858-883): returns (period timer, volume). -/
def envFn (period timer volume : Nat) (is_upwards : Bool) : Nat × Nat :=
  if period ≠ 0 then
    let timer := if timer > 0 then timer - 1 else timer
    if timer = 0 then
      if (volume < 0xF ∧ is_upwards) ∨ (volume > 0x0 ∧ ¬is_upwards) then
        (period, if is_upwards then volume + 1 else volume - 1)
      else (period, volume)
    else (timer, volume)
  else (timer, volume)

/-- `SoundController::calculate_frequency` (lines 997-1012): the sweep
shift applied to the shadow frequency; using negate mode records the fact,
and an out-of-range result disables channel 1.  Returns the new state and
the computed frequency (u16 addition wraps). -/
def SoundController.calculate_frequency (s : SoundController) (ch1_sweep_shift : Nat)
    (is_downwards : Bool) : SoundController × Nat :=
  let s := if is_downwards then { s with ch1_has_done_sweep_calculation := true } else s
  let nf0 := s.ch1_shadow_freq >>> ch1_sweep_shift
  let new_freq := if is_downwards then s.ch1_shadow_freq - nf0
    else (s.ch1_shadow_freq + nf0) % 65536
  let s := if new_freq ≥ 2048 then { s with ch1_channel_enable := false } else s
  (s, new_freq)

/-- The length-counter part of a frame-sequencer step
(lines 449-474 / 830-855). -/
def lengthCtrStep (s : SoundController) : SoundController :=
  let s := if s.nr14 &&& 0x40 ≠ 0 ∧ s.ch1_length_timer ≠ 0 then
      { s with ch1_length_timer := s.ch1_length_timer - 1,
               ch1_channel_enable :=
                 if s.ch1_length_timer - 1 = 0 then false else s.ch1_channel_enable }
    else s
  let s := if s.nr24 &&& 0x40 ≠ 0 ∧ s.ch2_length_timer ≠ 0 then
      { s with ch2_length_timer := s.ch2_length_timer - 1,
               ch2_channel_enable :=
                 if s.ch2_length_timer - 1 = 0 then false else s.ch2_channel_enable }
    else s
  let s := if s.nr34 &&& 0x40 ≠ 0 ∧ s.ch3_length_timer ≠ 0 then
      { s with ch3_length_timer := s.ch3_length_timer - 1,
               ch3_channel_enable :=
                 if s.ch3_length_timer - 1 = 0 then false else s.ch3_channel_enable }
    else s
  let s := if s.nr44 &&& 0x40 ≠ 0 ∧ s.ch4_length_timer ≠ 0 then
      { s with ch4_length_timer := s.ch4_length_timer - 1,
               ch4_channel_enable :=
                 if s.ch4_length_timer - 1 = 0 then false else s.ch4_channel_enable }
    else s
  s

/-- The volume-envelope part of a frame-sequencer step
(lines 476-522 / 857-903). -/
def envStep (c : ApuConsts) (s : SoundController) : SoundController :=
  let e1 := envFn c.ch1_env_period s.ch1_env_period_timer s.ch1_current_volume c.ch1_env_direction
  let e2 := envFn c.ch2_env_period s.ch2_env_period_timer s.ch2_current_volume c.ch2_env_direction
  let e4 := envFn c.ch4_env_period s.ch4_env_period_timer s.ch4_current_volume c.ch4_env_direction
  { s with ch1_env_period_timer := e1.1, ch1_current_volume := e1.2,
           ch2_env_period_timer := e2.1, ch2_current_volume := e2.2,
           ch4_env_period_timer := e4.1, ch4_current_volume := e4.2 }

/-- The sweep part of a frame-sequencer step (lines 524-550 / 905-931);
returns the state and the (possibly updated) loop-carried `ch1_freq`. -/
def sweepStep (c : ApuConsts) (s : SoundController) (ch1_freq : Nat) :
    SoundController × Nat :=
  let s := if s.ch1_sweep_timer > 0 then
      { s with ch1_sweep_timer := s.ch1_sweep_timer - 1 }
    else s
  if s.ch1_sweep_timer = 0 then
    let s := { s with ch1_sweep_timer :=
      if c.ch1_sweep_period = 0 then 8 else c.ch1_sweep_period }
    if s.ch1_sweep_enabled ∧ c.ch1_sweep_period ≠ 0 then
      let r1 := s.calculate_frequency c.ch1_sweep_shift c.ch1_sweep_direction
      let s := r1.1
      let new_freq := r1.2
      if new_freq < 2048 ∧ c.ch1_sweep_shift > 0 then
        let f := new_freq &&& 0x7FF
        let s := { s with nr14 := (s.nr14 &&& 0xF8) ||| ((f >>> 8) &&& 0x7),
                          nr13 := f &&& 0xFF,
                          ch1_shadow_freq := new_freq }
        let s := (s.calculate_frequency c.ch1_sweep_shift c.ch1_sweep_direction).1
        (s, f)
      else (s, ch1_freq)
    else (s, ch1_freq)
  else (s, ch1_freq)

/-- A full frame-sequencer step, shared verbatim between `update`
(lines 443-550) and `update_ref` (lines 824-931). -/
def seqStep (c : ApuConsts) (s : SoundController) (ch1_freq : Nat) :
    SoundController × Nat :=
  let lenght_ctr := s.frame_sequencer_step % 2 = 0
  let volume_env := s.frame_sequencer_step % 8 = 7
  let sweep := s.frame_sequencer_step % 4 = 2
  let s := { s with frame_sequencer_step := (s.frame_sequencer_step + 1) % 8 }
  let s := if lenght_ctr then lengthCtrStep s else s
  let s := if volume_env then envStep c s else s
  if sweep then sweepStep c s ch1_freq else (s, ch1_freq)

/-- Collecting one stereo sample pair, shared verbatim between `update`
(lines 554-613) and `update_ref` (lines 943-991). -/
def sampleBody (c : ApuConsts) (s : SoundController) : SoundController :=
  let ch1_amp := ((WAVE_DUTY_TABLE.getD c.ch1_duty 0 >>> s.ch1_wave_duty_position) &&& 0x1)
    * s.ch1_current_volume
  let ch2_amp := ((WAVE_DUTY_TABLE.getD c.ch2_duty 0 >>> s.ch2_wave_duty_position) &&& 0x1)
    * s.ch2_current_volume
  let ch3_amp := s.ch3_sample_buffer >>> c.ch3_output_level
  let ch4_amp := (((0xFFFF ^^^ s.ch4_lfsr % 65536) % 256) &&& 0x01) * s.ch4_current_volume
  let left1 := if s.ch1_channel_enable ∧ c.ch1_left then ch1_amp else 0
  let right1 := if s.ch1_channel_enable ∧ c.ch1_right then ch1_amp else 0
  let left2 := if s.ch2_channel_enable ∧ c.ch2_left then ch2_amp else 0
  let right2 := if s.ch2_channel_enable ∧ c.ch2_right then ch2_amp else 0
  let left3 := if s.ch3_channel_enable ∧ s.nr30 &&& 0x80 ≠ 0 ∧ c.ch3_left then ch3_amp else 0
  let right3 := if s.ch3_channel_enable ∧ s.nr30 &&& 0x80 ≠ 0 ∧ c.ch3_right then ch3_amp else 0
  let left4 := if s.ch4_channel_enable ∧ c.ch4_left then ch4_amp else 0
  let right4 := if s.ch4_channel_enable ∧ c.ch4_right then ch4_amp else 0
  let left := left1 + left2 + left3 + left4
  let right := right1 + right2 + right3 + right4
  { s with output := s.output ++ [left * c.volume_left, right * c.volume_right] }

/-- The body of `update_ref`'s per-even-clock loop (lines 769-993):
tick the four channel timers, step the frame sequencer on multiples of
`CLOCK_SPEED / 512`, then update the sampling phase and possibly collect a
sample. -/
def refStep (c : ApuConsts) (clock : Nat) (s : SoundController) (ch1_freq : Nat) :
    SoundController × Nat :=
  let s := if s.ch1_channel_enable then
      let t := dutyTick ch1_freq s.ch1_frequency_timer s.ch1_wave_duty_position
      { s with ch1_frequency_timer := t.1, ch1_wave_duty_position := t.2 }
    else s
  let s := if s.ch2_channel_enable then
      let t := dutyTick c.ch2_freq s.ch2_frequency_timer s.ch2_wave_duty_position
      { s with ch2_frequency_timer := t.1, ch2_wave_duty_position := t.2 }
    else s
  let s := if s.ch3_channel_enable then
      let t := ch3Tick s.ch3_wave_pattern c.ch3_freq s.ch3_frequency_timer
        s.ch3_wave_position s.ch3_sample_buffer
      { s with ch3_frequency_timer := t.1, ch3_wave_position := t.2.1,
               ch3_sample_buffer := t.2.2.1, ch3_wave_just_read := t.2.2.2 }
    else { s with ch3_wave_just_read := false }
  let s := if s.ch4_channel_enable then
      let t := ch4Tick c.ch4_divisor c.ch4_shift_amount c.ch4_counter_width
        s.ch4_frequency_timer s.ch4_lfsr
      { s with ch4_frequency_timer := t.1, ch4_lfsr := t.2 }
    else s
  let sc : SoundController × Nat :=
    if clock % (CLOCK_SPEED / 512) = 0 then seqStep c s ch1_freq else (s, ch1_freq)
  let s : SoundController := sc.1
  let ch1_freq : Nat := sc.2
  if s.sample_frequency ≠ 0 then
    let s2 : SoundController :=
      { s with sample_mod := (s.sample_mod + 2 * s.sample_frequency) % CLOCK_SPEED }
    if s2.sample_mod < 2 * s2.sample_frequency then (sampleBody c s2, ch1_freq)
    else (s2, ch1_freq)
  else (s, ch1_freq)

/-- Iterate `refStep` over the even clocks, ascending two at a time. -/
def update_ref_loop (c : ApuConsts) : Nat → Nat → SoundController × Nat → SoundController × Nat
  | 0, _, sf => sf
  | n + 1, clock, sf => update_ref_loop c n (clock + 2) (refStep c clock sf.1 sf.2)

/-- The shared power-off branch of `update` and `update_ref`
(lines 327-353 / 703-729): count the sample points in u64 arithmetic and
append that many zero pairs.  Note the source's `elapsed_clock` is
computed after `last_clock_count` has been assigned and is literally 0. -/
def updateOff (s : SoundController) (clock_count : Nat) : SoundController :=
  let s :=
    if s.sample_frequency ≠ 0 then
      let anchor := s.last_clock_count - s.last_clock_count % CLOCK_SPEED
      let l := s.last_clock_count - anchor
      let r := wsub clock_count anchor
      let n := w64 (wsub (w64 (r * s.sample_frequency) / CLOCK_SPEED)
                         (w64 (l * s.sample_frequency) / CLOCK_SPEED)
            + (if w64 (l * s.sample_frequency) % CLOCK_SPEED < s.sample_frequency then 1 else 0))
      { s with output := s.output ++ List.replicate (w64 (2 * n)) 0 }
    else s
  let elapsed_clock := clock_count - clock_count
  { s with last_clock_count := clock_count,
           sample_mod := (s.sample_mod + elapsed_clock * s.sample_frequency) % CLOCK_SPEED }

/-- `SoundController::update_ref` (lines 702-995): the naive reference
that emulates every even clock in `[last_clock_count, clock_count)` one
2-T-cycle step at a time. -/
def SoundController.update_ref (s : SoundController) (clock_count : Nat) : SoundController :=
  if ¬s.on' then updateOff s clock_count
  else
    let c := apuConsts s
    let ch1_freq := u16_be s.nr14 s.nr13 &&& 0x07FF
    let l0 := s.last_clock_count + (if s.last_clock_count % 2 = 0 then 0 else 1)
    let steps := (clock_count - l0 + 1) / 2
    let sf := update_ref_loop c steps l0 (s, ch1_freq)
    { sf.1 with last_clock_count := clock_count }

/-- The event loop of the optimised `SoundController::update`
(lines 398-615): jump from event to event (frame-sequencer steps at
multiples of `CLOCK_SPEED/512`, sample points derived from `sample_mod`),
catching the channel timers up in bulk with `run_timers` at each event.
All clock arithmetic is u64 (`w64`/`wsub`).  Returns the state, the
loop-carried `ch1_freq`, and `last_run`.  `fuel` bounds the iteration
count; `update` passes enough for every terminating execution. -/
def updateLoop (c : ApuConsts) (clock_count r : Nat) :
    Nat → SoundController → Nat → Nat → Nat → SoundController × Nat × Nat
  | 0, s, ch1_freq, _clock, last_run => (s, ch1_freq, last_run)
  | fuel + 1, s, ch1_freq, clock, last_run =>
    let step_period := CLOCK_SPEED / 512
    let next_step := w64 (step_period * (1 + clock / step_period))
    let next_sample :=
      if s.sample_frequency = 0 then u64Max
      else
        let fs := s.sample_frequency
        let num := wsub (w64 (wsub CLOCK_SPEED s.sample_mod + fs)) 1
        let ns := w64 (clock + num / fs)
        w64 (ns + (if ns % 2 = 0 then 0 else 1))
    let previous_clock := clock
    let clock := min next_step next_sample
    if clock ≥ clock_count then
      let delta := wsub (wsub r 2) previous_clock
      ({ s with sample_mod :=
          (s.sample_mod + w64 (delta * s.sample_frequency)) % CLOCK_SPEED },
       ch1_freq, last_run)
    else
      let delta := wsub clock previous_clock
      let s := { s with sample_mod :=
        (s.sample_mod + w64 (delta * s.sample_frequency)) % CLOCK_SPEED }
      let sfl :=
        if next_step = clock then
          if clock % (CLOCK_SPEED / 512) = 0 then
            let s := s.run_timers (wsub clock last_run / 2) ch1_freq c.ch2_freq c.ch3_freq
              c.ch4_divisor c.ch4_shift_amount c.ch4_counter_width
            let sc := seqStep c s ch1_freq
            (sc.1, sc.2, clock)
          else (s, ch1_freq, last_run)
        else (s, ch1_freq, last_run)
      let s := sfl.1
      let ch1_freq := sfl.2.1
      let last_run := sfl.2.2
      let sl :=
        if next_sample = clock then
          let s := s.run_timers (wsub clock last_run / 2) ch1_freq c.ch2_freq c.ch3_freq
            c.ch4_divisor c.ch4_shift_amount c.ch4_counter_width
          (sampleBody c s, clock)
        else (s, last_run)
      updateLoop c clock_count r fuel sl.1 ch1_freq clock sl.2

/-- `SoundController::update` (lines 321-630): early return when the clock
has not advanced; power-off branch; otherwise round the interval to even
clocks, run the event loop from `l - 2`, and catch up the remaining ticks. -/
def SoundController.update (s : SoundController) (clock_count : Nat) : SoundController :=
  if clock_count ≤ s.last_clock_count then s
  else if ¬s.on' then updateOff s clock_count
  else
    let c := apuConsts s
    let ch1_freq := u16_be s.nr14 s.nr13 &&& 0x07FF
    let l := w64 (s.last_clock_count + (if s.last_clock_count % 2 = 0 then 0 else 1))
    let r := w64 (clock_count + (if clock_count % 2 = 0 then 0 else 1))
    let fuel := (clock_count - s.last_clock_count) / 2 + 3
    let res := updateLoop c clock_count r fuel s ch1_freq (wsub l 2) (wsub l 2)
    let s1 := res.1
    let ch1_freq1 := res.2.1
    let last_run := res.2.2
    let s2 :=
      if clock_count > w64 (last_run + 1) then
        s1.run_timers (wsub (wsub r 2) last_run / 2) ch1_freq1 c.ch2_freq c.ch3_freq
          c.ch4_divisor c.ch4_shift_amount c.ch4_counter_width
      else s1
    { s2 with last_clock_count := clock_count }

/-- The NR52 (0xFF26) arm of `SoundController::write` (lines 1014-1015 and
1312-1339): the handler first catches the controller up to `clock_count`;
writing bit 7 = 0 while on resets the controller to `Default` except wave
RAM, the four length counters, the length-load fields of NR11/NR21/NR31/
NR41, and the output/clock/sampling bookkeeping; writing bit 7 = 1 while
off just turns it on. -/
def SoundController.write_nr52 (s : SoundController) (clock_count value : Nat) :
    SoundController :=
  let s := s.update clock_count
  if value &&& 0x80 = 0 ∧ s.on' then
    { SoundController.defaultState with
        on' := false
        ch3_wave_pattern := s.ch3_wave_pattern
        nr11 := s.nr11 &&& 0x3F
        ch1_length_timer := s.ch1_length_timer
        nr21 := s.nr21 &&& 0x3F
        ch2_length_timer := s.ch2_length_timer
        nr31 := s.nr31 &&& 0xFF
        ch3_length_timer := s.ch3_length_timer
        nr41 := s.nr41 &&& 0x3F
        ch4_length_timer := s.ch4_length_timer
        output := s.output
        last_clock_count := s.last_clock_count
        sample_frequency := s.sample_frequency
        sample_mod := s.sample_mod }
  else if value &&& 0x80 ≠ 0 ∧ ¬s.on' then { s with on' := true }
  else s

instance peqDecidable (a b : SoundController) : Decidable (a.peq b) := by
  unfold SoundController.peq
  infer_instance

/-- A powered-on controller with channel 3 disabled but its
`ch3_wave_just_read` flag still set, one T-cycle before an odd clock. -/
def c1State : SoundController :=
  { SoundController.defaultState with
      on' := true, ch3_channel_enable := false, ch3_wave_just_read := true,
      last_clock_count := 1 }

/-- A powered-on controller with a nonzero length-load field in NR11. -/
def c10State : SoundController :=
  { SoundController.defaultState with on' := true, nr11 := 1 }

/-- Round a clock up to the next even value (the `l`/`r` rounding at the
head of `update`'s powered-on branch). -/
def evenUp (x : Nat) : Nat := x + (if x % 2 = 0 then 0 else 1)

/-- A powered-on controller violating the claimed sample-count formula:
sampling at a quarter of the clock rate from a consistent phase. -/
def c6State : SoundController :=
  { SoundController.defaultState with
      on' := true, sample_frequency := 1048576, sample_mod := 0, last_clock_count := 0 }

/-- The arithmetic skeleton of `updateLoop`, keeping only the data that
determines the sample count: the loop clock, the sampling phase
`sample_mod`, and the number of output values appended.  Every branch
mirrors `updateLoop` term for term with `fs` for `s.sample_frequency` and
`φ` for `s.sample_mod`; the channel state, which the frame-sequencer and
timer calls leave out of these three components, is dropped. -/
def countLoop (fs clock_count r : Nat) : Nat → Nat → Nat → Nat × Nat
  | 0, φ, _clock => (0, φ)
  | fuel + 1, φ, clock =>
    let step_period := CLOCK_SPEED / 512
    let next_step := w64 (step_period * (1 + clock / step_period))
    let next_sample :=
      if fs = 0 then u64Max
      else
        let num := wsub (w64 (wsub CLOCK_SPEED φ + fs)) 1
        let ns := w64 (clock + num / fs)
        w64 (ns + (if ns % 2 = 0 then 0 else 1))
    let previous_clock := clock
    let clock := min next_step next_sample
    if clock ≥ clock_count then
      (0, (φ + w64 (wsub (wsub r 2) previous_clock * fs)) % CLOCK_SPEED)
    else
      let φ := (φ + w64 (wsub clock previous_clock * fs)) % CLOCK_SPEED
      let rest := countLoop fs clock_count r fuel φ clock
      ((if next_sample = clock then 2 else 0) + rest.1, rest.2)

/-- A powered-on controller sampling at a quarter of the clock rate with a
phase consistent with its `last_clock_count` (`sample_mod = 2 * fs % fc`). -/
def c6OnState : SoundController :=
  { SoundController.defaultState with
      on' := true, sample_frequency := 1048576, sample_mod := 2097152,
      last_clock_count := 2 }

/-! ## Theorems -/

theorem getD_set_self {q : List Nat} {p : Nat} {v : Nat} (hp : p < q.length) :
    (q.set p v).getD p 0 = v := by
  rw [List.getD_eq_getElem?_getD, List.getElem?_set_self hp]; rfl

theorem getD_set_ne {q : List Nat} {p p' : Nat} {v : Nat} (hne : p ≠ p') :
    (q.set p v).getD p' 0 = q.getD p' 0 := by
  rw [List.getD_eq_getElem?_getD, List.getElem?_set_ne hne, ← List.getD_eq_getElem?_getD]

theorem ringDist_lt : ∀ c < 16, ∀ h < 16, ringDist c h < 16 := by decide

theorem ringDist_eq_zero : ∀ c < 16, ∀ h < 16, (ringDist c h = 0 ↔ c = h) := by decide

theorem ringDist_succ : ∀ c < 16, ∀ h < 16, c ≠ h →
    ringDist ((c + 1) % 16) h = ringDist c h - 1 := by decide

theorem ring_inj : ∀ c < 16, ∀ i < 16, ∀ j < 16,
    (c + i) % 16 = (c + j) % 16 → i = j := by decide

theorem len_eq_ringDist : ∀ t < 16, ∀ h < 16,
    (if t ≤ h then h - t else 16 - t + h) = ringDist t h := by decide

theorem ringDist_add : ∀ t < 16, ∀ h < 16, ∀ k ≤ 8, ringDist t h + k < 16 →
    ringDist t ((h + k) % 16) = ringDist t h + k := by decide

theorem overwriteLoop_spec (px : Nat → Nat) (h : Nat) (hh : h < 16) :
    ∀ (x : Nat) (q : List Nat) (c : Nat), q.length = 16 → c < 16 →
    (overwriteLoop h px q c x).2 = x - min x (ringDist c h) ∧
    (overwriteLoop h px q c x).1.length = 16 ∧
    (∀ j, j < min x (ringDist c h) →
      (overwriteLoop h px q c x).1.getD ((c + j) % 16) 0 =
        (if q.getD ((c + j) % 16) 0 &&& 3 = 0 then px (x - 1 - j)
         else q.getD ((c + j) % 16) 0)) ∧
    (∀ p, p < 16 → (∀ j, j < min x (ringDist c h) → p ≠ (c + j) % 16) →
      (overwriteLoop h px q c x).1.getD p 0 = q.getD p 0) := by
  intro x
  induction x with
  | zero =>
    intro q c hq hc
    refine ⟨by simp [overwriteLoop], hq, ?_, fun p _ _ => rfl⟩
    intro j hj; simp at hj
  | succ x ih =>
    intro q c hq hc
    by_cases hch : c = h
    · have hd : ringDist c h = 0 := (ringDist_eq_zero c hc h hh).2 hch
      rw [overwriteLoop, if_pos hch]
      refine ⟨by simp [hd], hq, ?_, fun p _ _ => rfl⟩
      intro j hj; rw [hd] at hj; simp at hj
    · have hd0 : ringDist c h ≠ 0 := fun h0 => hch ((ringDist_eq_zero c hc h hh).1 h0)
      have hdsucc := ringDist_succ c hc h hh hch
      set q' := if q.getD c 0 &&& 3 = 0 then q.set c (px x) else q with hq'
      have hq'len : q'.length = 16 := by
        rw [hq']; split <;> simp [hq]
      have hc' : (c + 1) % 16 < 16 := Nat.mod_lt _ (by omega)
      obtain ⟨h1, h2, h3, h4⟩ := ih q' ((c + 1) % 16) hq'len hc'
      have hrun : overwriteLoop h px q c (x + 1) = overwriteLoop h px q' ((c + 1) % 16) x := by
        rw [overwriteLoop, if_neg hch]
      have hmin : min (x + 1) (ringDist c h) = min x (ringDist ((c + 1) % 16) h) + 1 := by
        rw [hdsucc]; omega
      -- entry lookups at positions (c + (j+1)) % 16 line up with ((c+1)%16 + j) % 16
      have hpos : ∀ j : Nat, ((c + 1) % 16 + j) % 16 = (c + (j + 1)) % 16 := by
        intro j; rw [Nat.mod_add_mod]; omega
      refine ⟨?_, ?_, ?_, ?_⟩
      · rw [hrun, h1, hmin]; omega
      · rw [hrun]; exact h2
      · intro j hj
        rw [hrun]
        match j with
        | 0 =>
          -- position c itself: untouched by the recursive call
          have hne : ∀ j', j' < min x (ringDist ((c + 1) % 16) h) → (c + 0) % 16 ≠ ((c + 1) % 16 + j') % 16 := by
            intro j' hj' heq
            rw [hpos j'] at heq
            have h16 : j' + 1 < 16 := by
              have := ringDist_lt ((c + 1) % 16) hc' h hh; omega
            have := ring_inj c hc 0 (by omega) (j' + 1) h16 heq
            omega
          have := h4 ((c + 0) % 16) (Nat.mod_lt _ (by omega)) hne
          rw [this, hq']
          have hcc : (c + 0) % 16 = c := by omega
          rw [hcc]
          split
          · rw [getD_set_self (by omega)]
            simp
          · simp
        | j' + 1 =>
          have hj'' : j' < min x (ringDist ((c + 1) % 16) h) := by omega
          have := h3 j' hj''
          rw [hpos j'] at this
          rw [this]
          have hq'eq : q'.getD ((c + (j' + 1)) % 16) 0 = q.getD ((c + (j' + 1)) % 16) 0 := by
            rw [hq']
            split
            · apply getD_set_ne
              intro heq
              have h16 : j' + 1 < 16 := by
                have := ringDist_lt c hc h hh; omega
              have heq2 : (c + 0) % 16 = (c + (j' + 1)) % 16 := by
                rw [Nat.add_zero, Nat.mod_eq_of_lt hc]; exact heq
              have := ring_inj c hc 0 (by omega) (j' + 1) h16 heq2
              omega
            · rfl
          rw [hq'eq]
          have harith : x + 1 - 1 - (j' + 1) = x - 1 - j' := by omega
          rw [harith]
      · intro p hp hnp
        rw [hrun]
        have hnp' : ∀ j', j' < min x (ringDist ((c + 1) % 16) h) → p ≠ ((c + 1) % 16 + j') % 16 := by
          intro j' hj'
          rw [hpos j']
          exact hnp (j' + 1) (by omega)
        rw [h4 p hp hnp', hq']
        split
        · apply getD_set_ne
          intro heq
          have hcc : (c + 0) % 16 = c := by omega
          exact hnp 0 (by omega) (by rw [hcc]; exact heq.symm) |>.elim
        · rfl

theorem appendLoop_spec (px : Nat → Nat) :
    ∀ (x : Nat) (q : List Nat) (h : Nat), q.length = 16 → h < 16 → x ≤ 8 →
    (appendLoop px q h x).2 = (h + x) % 16 ∧
    (appendLoop px q h x).1.length = 16 ∧
    (∀ j, j < x → (appendLoop px q h x).1.getD ((h + j) % 16) 0 = px (x - 1 - j)) ∧
    (∀ p, p < 16 → (∀ j, j < x → p ≠ (h + j) % 16) →
      (appendLoop px q h x).1.getD p 0 = q.getD p 0) := by
  intro x
  induction x with
  | zero =>
    intro q h hq hh _
    refine ⟨by simp [appendLoop, Nat.mod_eq_of_lt hh], by simp [appendLoop, hq], ?_,
      fun p _ _ => by simp [appendLoop]⟩
    intro j hj; simp at hj
  | succ x ih =>
    intro q h hq hh hx
    have hh' : (h + 1) % 16 < 16 := Nat.mod_lt _ (by omega)
    obtain ⟨h1, h2, h3, h4⟩ := ih (q.set h (px x)) ((h + 1) % 16) (by simp [hq]) hh' (by omega)
    have hrun : appendLoop px q h (x + 1) = appendLoop px (q.set h (px x)) ((h + 1) % 16) x := rfl
    have hpos : ∀ j : Nat, ((h + 1) % 16 + j) % 16 = (h + (j + 1)) % 16 := by
      intro j; rw [Nat.mod_add_mod]; omega
    refine ⟨?_, ?_, ?_, ?_⟩
    · rw [hrun, h1, Nat.mod_add_mod]; omega
    · rw [hrun]; exact h2
    · intro j hj
      rw [hrun]
      match j with
      | 0 =>
        have hne : ∀ j', j' < x → (h + 0) % 16 ≠ ((h + 1) % 16 + j') % 16 := by
          intro j' hj' heq
          rw [hpos j'] at heq
          have := ring_inj h hh 0 (by omega) (j' + 1) (by omega) heq
          omega
        have := h4 ((h + 0) % 16) (Nat.mod_lt _ (by omega)) hne
        rw [this]
        have hcc : (h + 0) % 16 = h := by omega
        rw [hcc, getD_set_self (by omega)]
        simp
      | j' + 1 =>
        have := h3 j' (by omega)
        rw [hpos j'] at this
        rw [this]
        have : x - 1 - j' = x + 1 - 1 - (j' + 1) := by omega
        rw [this]
    · intro p hp hnp
      rw [hrun]
      have hnp' : ∀ j', j' < x → p ≠ ((h + 1) % 16 + j') % 16 := by
        intro j' hj'
        rw [hpos j']
        exact hnp (j' + 1) (by omega)
      rw [h4 p hp hnp']
      apply getD_set_ne
      intro heq
      have hcc : (h + 0) % 16 = h := by omega
      exact hnp 0 (by omega) (by rw [hcc]; exact heq.symm) |>.elim

theorem ringDist_shift : ∀ t < 16, ∀ h < 16, (t + ringDist t h) % 16 = h := by decide

/-- C9: `PixelFifo::push_sprite` overwrites an existing FIFO entry (among
the first 8 counted from the tail) only when its low two color bits are 0,
leaves entries with nonzero color unchanged, appends the remaining new
pixels past the current end, and leaves the FIFO with length
`max (previous length) 8`. -/
theorem C9_push_sprite (f : PixelFifo) (tl th : Nat) (pal bp : Bool)
    (hq : f.queue.length = 16) (hh : f.head < 16) (ht : f.tail < 16) :
    (f.push_sprite tl th pal bp).len = max f.len 8 ∧
    (∀ i, i < f.len → i < 8 →
      (f.push_sprite tl th pal bp).entry i =
        (if f.entry i &&& 3 = 0 then spritePixel tl th pal bp (7 - i) else f.entry i)) ∧
    (∀ i, i < f.len → 8 ≤ i → (f.push_sprite tl th pal bp).entry i = f.entry i) ∧
    (∀ i, f.len ≤ i → i < 8 →
      (f.push_sprite tl th pal bp).entry i = spritePixel tl th pal bp (7 - i)) := by
  set px := spritePixel tl th pal bp with hpx
  set d := ringDist f.tail f.head with hd
  have hdlt : d < 16 := ringDist_lt f.tail ht f.head hh
  have hlen : f.len = d := by
    rw [PixelFifo.len, hd]; exact len_eq_ringDist f.tail ht f.head hh
  obtain ⟨o1, o2, o3, o4⟩ := overwriteLoop_spec px f.head hh 8 f.queue f.tail hq ht
  set ow := overwriteLoop f.head px f.queue f.tail 8 with how
  have hxr : ow.2 = 8 - min 8 d := o1
  have hxr8 : ow.2 ≤ 8 := by omega
  obtain ⟨a1, a2, a3, a4⟩ := appendLoop_spec px ow.2 ow.1 f.head o2 hh hxr8
  set ap := appendLoop px ow.1 f.head ow.2 with hap
  have hg : f.push_sprite tl th pal bp =
      { queue := ap.1, head := ap.2, tail := f.tail } := by
    rw [PixelFifo.push_sprite]
  have hhead : (f.tail + d) % 16 = f.head := ringDist_shift f.tail ht f.head hh
  -- append positions, expressed from the tail
  have happos : ∀ j : Nat, (f.head + j) % 16 = (f.tail + (d + j)) % 16 := by
    intro j
    conv_lhs => rw [← hhead]
    rw [Nat.mod_add_mod, Nat.add_assoc]
  have hmaxlt : d + ow.2 < 16 := by rw [hxr]; omega
  refine ⟨?_, ?_, ?_, ?_⟩
  · -- length
    rw [hg, hlen]
    show (if f.tail ≤ ap.2 then ap.2 - f.tail else 16 - f.tail + ap.2) = max d 8
    have hap2 : ap.2 = (f.head + ow.2) % 16 := a1
    have : (if f.tail ≤ ap.2 then ap.2 - f.tail else 16 - f.tail + ap.2) =
        ringDist f.tail ap.2 := by
      apply len_eq_ringDist f.tail ht
      rw [hap2]; exact Nat.mod_lt _ (by omega)
    rw [this, hap2, ringDist_add f.tail ht f.head hh ow.2 hxr8 (by rw [← hd]; omega), ← hd, hxr]
    omega
  · -- overwritten region
    intro i hi hi8
    rw [hg, hlen] at *
    have him : i < min 8 d := by omega
    show ap.1.getD ((f.tail + i) % 16) 0 = _
    have hna : ∀ j, j < ow.2 → (f.tail + i) % 16 ≠ (f.head + j) % 16 := by
      intro j hj heq
      rw [happos j] at heq
      have h1 : i < 16 := by omega
      have h2 : d + j < 16 := by omega
      have := ring_inj f.tail ht i h1 (d + j) h2 heq
      omega
    rw [a4 ((f.tail + i) % 16) (Nat.mod_lt _ (by omega)) hna]
    have := o3 i him
    rw [this]
    have h71 : 8 - 1 - i = 7 - i := by omega
    rw [h71]
    rfl
  · -- untouched region past the first 8
    intro i hi hi8
    rw [hg, hlen] at *
    show ap.1.getD ((f.tail + i) % 16) 0 = _
    have hna : ∀ j, j < ow.2 → (f.tail + i) % 16 ≠ (f.head + j) % 16 := by
      intro j hj heq
      rw [happos j] at heq
      have h1 : i < 16 := by omega
      have h2 : d + j < 16 := by omega
      have := ring_inj f.tail ht i h1 (d + j) h2 heq
      omega
    rw [a4 ((f.tail + i) % 16) (Nat.mod_lt _ (by omega)) hna]
    have hno : ∀ j, j < min 8 d → (f.tail + i) % 16 ≠ (f.tail + j) % 16 := by
      intro j hj heq
      have h1 : i < 16 := by omega
      have h2 : j < 16 := by omega
      have := ring_inj f.tail ht i h1 j h2 heq
      omega
    exact o4 ((f.tail + i) % 16) (Nat.mod_lt _ (by omega)) hno
  · -- appended region
    intro i hi hi8
    rw [hg, hlen] at *
    have hdi : d < 8 := by omega
    have hmind : min 8 d = d := by omega
    show ap.1.getD ((f.tail + i) % 16) 0 = _
    have hij : (f.tail + i) % 16 = (f.head + (i - d)) % 16 := by
      rw [happos (i - d)]
      congr 1
      omega
    rw [hij, a3 (i - d) (by omega)]
    congr 1
    omega

/-- Witness for C9 at a concrete FIFO of length 4. -/
theorem C9_push_sprite_witness :
    (fifo0.push_sprite 255 15 false true).len = max fifo0.len 8 ∧ fifo0.len = 4 :=
  ⟨(C9_push_sprite fifo0 255 15 false true (by decide) (by decide) (by decide)).1, by decide⟩

theorem insertStable_perm {α : Type} (le : α → α → Bool) (a : α) :
    ∀ l : List α, (insertStable le a l).Perm (a :: l) := by
  intro l
  induction l with
  | nil => simp [insertStable]
  | cons b l ih =>
    rw [insertStable]
    split
    · exact List.Perm.refl _
    · exact (ih.cons b).trans (List.Perm.swap a b l)

theorem sortStable_perm {α : Type} (le : α → α → Bool) :
    ∀ l : List α, (sortStable le l).Perm l := by
  intro l
  induction l with
  | nil => simp [sortStable]
  | cons a l ih =>
    rw [sortStable]
    exact (insertStable_perm le a (sortStable le l)).trans (ih.cons a)

theorem insertStable_sorted {α : Type} (le : α → α → Bool)
    (htot : ∀ a b, le a b || le b a)
    (htrans : ∀ a b c, le a b → le b c → le a c) (a : α) :
    ∀ l : List α, l.Pairwise (fun x y => le x y = true) →
      (insertStable le a l).Pairwise (fun x y => le x y = true) := by
  intro l
  induction l with
  | nil => intro _; simp [insertStable]
  | cons b l ih =>
    intro hpw
    rw [List.pairwise_cons] at hpw
    obtain ⟨hb, hl⟩ := hpw
    rw [insertStable]
    split
    · rename_i hcond
      simp only [Bool.and_eq_true, Bool.not_eq_true'] at hcond
      refine List.pairwise_cons.2 ⟨?_, List.pairwise_cons.2 ⟨hb, hl⟩⟩
      intro c hc
      rcases List.mem_cons.1 hc with rfl | hc2
      · exact hcond.1
      · exact htrans a b c hcond.1 (hb c hc2)
    · rename_i hcond
      have htot' := htot a b
      rw [Bool.or_eq_true] at htot'
      have hba : le b a = true := by
        rcases htot' with h | h
        · cases hle : le b a
          · exact absurd (by rw [h, hle]; rfl) hcond
          · rfl
        · exact h
      refine List.pairwise_cons.2 ⟨?_, ih hl⟩
      intro c hc
      have hmem := (insertStable_perm le a l).mem_iff.1 hc
      rcases List.mem_cons.1 hmem with rfl | hcl
      · exact hba
      · exact hb c hcl

theorem sortStable_sorted {α : Type} (le : α → α → Bool)
    (htot : ∀ a b, le a b || le b a)
    (htrans : ∀ a b c, le a b → le b c → le a c) :
    ∀ l : List α, (sortStable le l).Pairwise (fun x y => le x y = true) := by
  intro l
  induction l with
  | nil => simp [sortStable]
  | cons a l ih =>
    rw [sortStable]
    exact insertStable_sorted le htot htrans a _ ih

theorem searchLoop_eq (ly spriteHeight : Nat) :
    ∀ (rest acc : List Sprite), acc.length < 10 →
    searchLoop ly spriteHeight acc rest =
      acc ++ (rest.filter (spriteMatches ly spriteHeight)).take (10 - acc.length) := by
  intro rest
  induction rest with
  | nil => intro acc _; simp [searchLoop]
  | cons s rest ih =>
    intro acc hacc
    rw [searchLoop, List.filter_cons]
    cases hms : spriteMatches ly spriteHeight s with
    | true =>
      simp only [hms, if_true]
      by_cases h10 : (acc ++ [s]).length = 10
      · rw [if_pos h10]
        have h1 : 10 - acc.length = 1 := by simp at h10; omega
        rw [h1]
        simp
      · rw [if_neg h10]
        rw [ih (acc ++ [s]) (by simp at h10 ⊢; omega)]
        have h1 : 10 - (acc ++ [s]).length = (10 - acc.length) - 1 := by simp; omega
        rw [h1]
        obtain ⟨k, hk⟩ : ∃ k, 10 - acc.length = k + 1 := ⟨10 - acc.length - 1, by omega⟩
        rw [hk]
        simp [List.take_succ_cons]
    | false =>
      simp only [hms, Bool.false_eq_true, if_false]
      have h10 : ¬acc.length = 10 := by omega
      rw [if_neg h10]
      exact ih acc hacc

/-- C8: after `Ppu::search_objects`, the sprite buffer is a permutation of
the first up-to-10 OAM sprites (in index order) whose Y range contains
`LY + 16` for the LCDC-selected height, it holds at most 10 sprites, and
it is sorted by X coordinate in descending order. -/
theorem C8_search_objects (oam40 : List Sprite) (ly lcdc : Nat)
    (hsx : ∀ s ∈ oam40, s.sx < 256) :
    (search_objects oam40 ly lcdc).Perm
      ((oam40.filter (spriteMatches ly
          (if lcdc &&& 0x04 ≠ 0 then 16 else 8))).take 10) ∧
    (search_objects oam40 ly lcdc).length ≤ 10 ∧
    (search_objects oam40 ly lcdc).Sorted (fun a b => b.sx ≤ a.sx) := by
  set spriteHeight := if lcdc &&& 0x04 ≠ 0 then 16 else 8 with hsh
  have hbuf : searchLoop ly spriteHeight [] oam40 =
      (oam40.filter (spriteMatches ly spriteHeight)).take 10 := by
    rw [searchLoop_eq ly spriteHeight oam40 [] (by simp)]
    simp
  have hso : search_objects oam40 ly lcdc =
      sortStable notSxLe (searchLoop ly spriteHeight [] oam40).reverse := rfl
  have hperm : (search_objects oam40 ly lcdc).Perm
      ((oam40.filter (spriteMatches ly spriteHeight)).take 10) := by
    rw [hso]
    have h1 := sortStable_perm notSxLe (searchLoop ly spriteHeight [] oam40).reverse
    have h2 : (searchLoop ly spriteHeight [] oam40).reverse.Perm
        ((oam40.filter (spriteMatches ly spriteHeight)).take 10) := by
      rw [hbuf]
      exact List.reverse_perm _
    exact h1.trans h2
  refine ⟨hperm, ?_, ?_⟩
  · rw [hperm.length_eq]
    simp
  · have hpw := sortStable_sorted notSxLe
      (by intro a b; rw [notSxLe, notSxLe]; rcases Nat.le_total (255 - a.sx % 256) (255 - b.sx % 256) with h | h <;> simp [h])
      (by intro a b c hab hbc; rw [notSxLe] at *; simp at hab hbc ⊢; omega)
      (searchLoop ly spriteHeight [] oam40).reverse
    rw [hso]
    apply List.Pairwise.imp_of_mem ?_ hpw
    intro a b ha hb hab
    have hmem : ∀ c, c ∈ sortStable notSxLe (searchLoop ly spriteHeight [] oam40).reverse →
        c ∈ oam40 := by
      intro c hc
      have h1 := (sortStable_perm notSxLe _).mem_iff.1 hc
      rw [List.mem_reverse, hbuf] at h1
      exact List.mem_of_mem_filter (List.mem_of_mem_take h1)
    have ha256 := hsx a (hmem a ha)
    have hb256 := hsx b (hmem b hb)
    rw [notSxLe] at hab
    simp at hab
    have hma : a.sx % 256 = a.sx := Nat.mod_eq_of_lt ha256
    have hmb : b.sx % 256 = b.sx := Nat.mod_eq_of_lt hb256
    omega

/-- Witness for C8 on a concrete 5-sprite OAM with four overlaps. -/
theorem C8_search_objects_witness :
    (search_objects oam0 0 0).Sorted (fun a b => b.sx ≤ a.sx) ∧
    search_objects oam0 0 0 =
      [⟨200, 12, 1, 0⟩, ⟨30, 16, 3, 0⟩, ⟨30, 10, 4, 0⟩, ⟨5, 16, 0, 0⟩] :=
  ⟨(C8_search_objects oam0 0 0 (by decide)).2.2, by decide⟩

theorem wsub_eq_sub {a b : Nat} (hba : b ≤ a) (ha : a < 2 ^ 64) : wsub a b = a - b := by
  rw [wsub]
  have hb : b % 2 ^ 64 = b := Nat.mod_eq_of_lt (by omega)
  rw [hb]
  omega

/-- C5 counterexample: a DMA is started at clock 1000 from an idle state;
the claim puts clock 1008 inside the unblocked startup window
([C0, C0+32)), but the code already blocks OAM from C0+8 on, so the read
returns 0xFF instead of the OAM byte 0x12. -/
theorem C5_counterexample :
    1008 < 1000 + 8 * 4 ∧
    (start_dma dmaIdle 1000).oam.getD 0 0 = 0x12 ∧
    read_oam [] (start_dma dmaIdle 1000) 1008 0xFE00 = 0xFF := by decide

/-- C5 (amended): after `Ppu::start_dma` at clock `c0` from an idle DMA
state, OAM reads return 0xFF exactly during `[c0 + 8, c0 + 8 + 160*4)`
(8 T-cycles of startup, then 160 M-cycles of transfer), and reads strictly
before `c0 + 8` are not blocked by this DMA. -/
theorem C5_dma_window (p : DmaState) (src : List Nat) (c0 t a : Nat)
    (hrun : p.dma_running = false) (hblk : p.dma_block_oam = false)
    (hmode : p.oam_read_block = false)
    (hc0 : c0 ≤ t) (ht : t < 2 ^ 64) :
    (c0 + 8 ≤ t → t < c0 + 8 + 160 * 4 →
      read_oam src (start_dma p c0) t a = 0xff) ∧
    (t < c0 + 8 →
      (update_dma src (start_dma p c0) t).dma_block_oam = false ∧
      read_oam src (start_dma p c0) t a = p.oam.getD (a - 0xFE00) 0) := by
  have hstart : start_dma p c0 =
      { p with dma_started := c0, dma_running := true } := by
    rw [start_dma]
    simp [hrun]
  have hels : wsub t c0 = t - c0 := wsub_eq_sub hc0 ht
  constructor
  · intro h1 h2
    rw [hstart, read_oam, update_dma]
    simp only [hels]
    have hge : t - c0 ≥ 8 := by omega
    have hlt : ¬(t - c0 ≥ 8 + 160 * 4) := by omega
    simp [hge, hlt]
  · intro h1
    have hge : ¬(t - c0 ≥ 8) := by omega
    have hlt : ¬(t - c0 ≥ 8 + 160 * 4) := by omega
    constructor
    · rw [hstart, update_dma]
      simp only [hels]
      simp [hge, hlt, hblk]
    · rw [hstart, read_oam, update_dma]
      simp only [hels]
      simp [hge, hlt, hblk, hmode]

/-- Witness for C5 at the start of the blocked window of a concrete DMA. -/
theorem C5_dma_window_witness :
    read_oam [] (start_dma dmaIdle 1000) 1008 0xFE00 = 0xff :=
  (C5_dma_window dmaIdle [] 1000 1008 0xFE00 rfl rfl rfl (by omega) (by norm_num)).1
    (by omega) (by omega)

/-- C4: `JitCompiler::interpret_block` invokes a compiled block's native
code exactly when a block exists, the CPU run mode is `Running`, and
`clock_count + initial_block_clock_cycles + 4 < next_interrupt` (u64
arithmetic); in every other case it falls into the interpreter loop, and
the decision is independent of the IME state (the code checks no IME
condition, so every IME state is compatible). -/
theorem C4_interpret_block_guard (block : Option JitBlock) (gb : JitGb) :
    (interpret_block_calls_native block gb = true ↔
      ∃ b, block = some b ∧ gb.cpu_state = CpuState.Running ∧
        w64 (gb.clock_count + b.initial_block_clock_cycles + 4) < gb.next_interrupt) ∧
    ∀ ime, interpret_block_calls_native block { gb with cpu_ime := ime } =
      interpret_block_calls_native block gb := by
  constructor
  · cases block with
    | none => simp [interpret_block_calls_native]
    | some b =>
      rw [interpret_block_calls_native, Bool.and_eq_true, decide_eq_true_iff, decide_eq_true_iff]
      constructor
      · rintro ⟨h1, h2⟩; exact ⟨b, rfl, h1, h2⟩
      · rintro ⟨b', hb', h1, h2⟩
        cases hb'
        exact ⟨h1, h2⟩
  · intro ime
    cases block <;> rfl

/-- C7: each clock-rewinding PPU I/O write handler (LCDC at 0xFF40, WX at
0xFF4B, and the BGP/OBP0/OBP1 palette-conflict write) rewinds the clock by
at most 2 T-cycles (every intermediate clock stays in [c-2, c+1]), returns
with the clock equal to its entry value `c`, and at every entry to
`Ppu::update` performed inside the handler the invariant
`ppu.last_clock_count ≤ clock_count` holds, given the handler's entry
precondition (`last + 2 ≤ c` for the two rewinding handlers — the
`debug_assert` at their heads — and `last ≤ c` for WX). -/
theorem C7_rewind_handlers (c last0 : Nat) (h2 : 2 ≤ c) (hc : c + 1 < 2 ^ 64) :
    (last0 + 2 ≤ c →
      (write_lcdc_clocks ⟨c, last0⟩).1.clock_count = c ∧
      (write_lcdc_clocks ⟨c, last0⟩).2 = [(c - 2, last0), (c - 1, c - 2), (c, c - 1)] ∧
      ∀ e ∈ (write_lcdc_clocks ⟨c, last0⟩).2, e.2 ≤ e.1 ∧ c - 2 ≤ e.1 ∧ e.1 ≤ c) ∧
    (last0 + 2 ≤ c →
      (write_pallete_conflict_clocks ⟨c, last0⟩).1.clock_count = c ∧
      (write_pallete_conflict_clocks ⟨c, last0⟩).2 = [(c - 2, last0), (c - 1, c - 2)] ∧
      ∀ e ∈ (write_pallete_conflict_clocks ⟨c, last0⟩).2,
        e.2 ≤ e.1 ∧ c - 2 ≤ e.1 ∧ e.1 ≤ c) ∧
    (last0 ≤ c →
      (write_wx_clocks ⟨c, last0⟩).1.clock_count = c ∧
      (write_wx_clocks ⟨c, last0⟩).2 = [(c, last0), (c + 1, c)] ∧
      ∀ e ∈ (write_wx_clocks ⟨c, last0⟩).2, e.2 ≤ e.1 ∧ c - 2 ≤ e.1 ∧ e.1 ≤ c + 1) := by
  have hw2 : wsub c 2 = c - 2 := wsub_eq_sub (by omega) (by omega)
  have hw64a : w64 (c - 2 + 1) = c - 1 := by rw [w64]; omega
  have hw64b : w64 (c - 1 + 1) = c := by rw [w64]; omega
  have hw64c : w64 (c + 1) = c + 1 := by rw [w64]; omega
  have hwsub1 : wsub (c + 1) 1 = c := wsub_eq_sub (by omega) (by omega)
  refine ⟨?_, ?_, ?_⟩
  · intro hpre
    rw [write_lcdc_clocks]
    simp only [ppuUpdateEntry, hw2, hw64a, hw64b]
    refine ⟨by trivial, by trivial, ?_⟩
    intro e he
    simp only [List.mem_cons, List.not_mem_nil, or_false] at he
    rcases he with rfl | rfl | rfl <;> simp <;> omega
  · intro hpre
    rw [write_pallete_conflict_clocks]
    simp only [ppuUpdateEntry, hw2, hw64a, hw64b]
    refine ⟨by trivial, by trivial, ?_⟩
    intro e he
    simp only [List.mem_cons, List.not_mem_nil, or_false] at he
    rcases he with rfl | rfl <;> simp <;> omega
  · intro hpre
    rw [write_wx_clocks]
    simp only [ppuUpdateEntry, hw64c, hwsub1]
    refine ⟨by trivial, by trivial, ?_⟩
    intro e he
    simp only [List.mem_cons, List.not_mem_nil, or_false] at he
    rcases he with rfl | rfl <;> simp <;> omega

/-- Witness for C7 at a concrete entry clock. -/
theorem C7_rewind_handlers_witness :
    (write_lcdc_clocks ⟨100, 50⟩).1.clock_count = 100 ∧
    (write_pallete_conflict_clocks ⟨100, 50⟩).1.clock_count = 100 ∧
    (write_wx_clocks ⟨100, 50⟩).1.clock_count = 100 :=
  ⟨((C7_rewind_handlers 100 50 (by omega) (by norm_num)).1 (by omega)).1,
   ((C7_rewind_handlers 100 50 (by omega) (by norm_num)).2.1 (by omega)).1,
   ((C7_rewind_handlers 100 50 (by omega) (by norm_num)).2.2 (by omega)).1⟩

set_option maxHeartbeats 1000000 in
theorem run_timers_on (s : SoundController) (a b c d e f : Nat) (g : Bool) :
    (s.run_timers a b c d e f g).on' = s.on' := by
  simp only [SoundController.run_timers, apply_ite (SoundController.on')]
  split_ifs <;> rfl

set_option maxHeartbeats 1000000 in
theorem calculate_frequency_on (s : SoundController) (sh : Nat) (dw : Bool) :
    (s.calculate_frequency sh dw).1.on' = s.on' := by
  simp only [SoundController.calculate_frequency, apply_ite (SoundController.on'),
    apply_ite (Prod.fst (β := Nat))]
  split_ifs <;> rfl

set_option maxHeartbeats 1000000 in
theorem sweepStep_on (c : ApuConsts) (s : SoundController) (f : Nat) :
    (sweepStep c s f).1.on' = s.on' := by
  simp only [sweepStep, apply_ite (SoundController.on'), apply_ite (Prod.fst (β := Nat))]
  split_ifs <;> simp only [calculate_frequency_on] <;> rfl

set_option maxHeartbeats 1000000 in
theorem lengthCtrStep_on (s : SoundController) : (lengthCtrStep s).on' = s.on' := by
  simp only [lengthCtrStep, apply_ite (SoundController.on')]
  split_ifs <;> rfl

theorem envStep_on (c : ApuConsts) (s : SoundController) : (envStep c s).on' = s.on' := rfl

set_option maxHeartbeats 1000000 in
theorem seqStep_on (c : ApuConsts) (s : SoundController) (f : Nat) :
    (seqStep c s f).1.on' = s.on' := by
  simp only [seqStep, apply_ite (SoundController.on'), apply_ite (Prod.fst (β := Nat))]
  split_ifs <;> simp only [sweepStep_on, envStep_on, lengthCtrStep_on] <;> rfl

theorem sampleBody_on (c : ApuConsts) (s : SoundController) :
    (sampleBody c s).on' = s.on' := rfl

set_option maxHeartbeats 1000000 in
theorem updateLoop_on (c : ApuConsts) (cc r : Nat) :
    ∀ (fuel : Nat) (s : SoundController) (f cl lr : Nat),
    (updateLoop c cc r fuel s f cl lr).1.on' = s.on' := by
  intro fuel
  induction fuel with
  | zero => intro s f cl lr; rfl
  | succ fuel ih =>
    intro s f cl lr
    rw [updateLoop]
    split_ifs with h1 <;>
      simp only [ih, apply_ite (SoundController.on'),
        apply_ite (Prod.fst (β := Nat × Nat)), apply_ite (Prod.fst (β := Nat)),
        seqStep_on, sampleBody_on, run_timers_on] <;>
      split_ifs <;>
      simp only [seqStep_on, sampleBody_on, run_timers_on] <;> rfl

theorem updateOff_on (s : SoundController) (cc : Nat) :
    (updateOff s cc).on' = s.on' := by
  simp only [updateOff, apply_ite (SoundController.on')]
  split_ifs <;> rfl

set_option maxHeartbeats 1000000 in
theorem update_on (s : SoundController) (cc : Nat) :
    (s.update cc).on' = s.on' := by
  rw [SoundController.update]
  by_cases h1 : cc ≤ s.last_clock_count
  · rw [if_pos h1]
  · rw [if_neg h1]
    by_cases h2 : ¬s.on'
    · rw [if_pos h2]; exact updateOff_on s cc
    · rw [if_neg h2]
      simp only [apply_ite (SoundController.on'), run_timers_on, updateLoop_on]
      split_ifs <;> rfl

/-- C10 counterexample: with the APU on and NR11 = 1 (a pure length-load
value), writing 0x00 to NR52 powers the APU off but leaves NR11 = 1: the
length-load fields of NR11/NR21/NR31/NR41 are registers that are *not*
cleared, contradicting the claim that all registers except wave RAM and
the length counters are cleared. -/
theorem C10_counterexample :
    (c10State.write_nr52 0 0).on' = false ∧
    (c10State.write_nr52 0 0).nr11 = 1 ∧ (1 : Nat) ≠ 0 := by decide

/-- C10 (amended): writing a value with bit 7 clear to NR52 while the APU
is on first catches the controller up to the write clock, then clears all
APU registers and channel state (channels disabled, frame sequencer,
envelopes, sweeps and timers back to default) except the 16-byte wave RAM,
the four channel length counters, and the length-load fields of
NR11/NR21/NR31/NR41 (the low 6 bits, all 8 bits for NR31), which are
preserved; the output buffer, clock and sampling bookkeeping are kept. -/
theorem C10_nr52_power_off (s : SoundController) (clock_count v : Nat)
    (hon : s.on' = true) (hv : v &&& 0x80 = 0) :
    (s.write_nr52 clock_count v).on' = false ∧
    ((s.write_nr52 clock_count v).nr10 = 0 ∧
     (s.write_nr52 clock_count v).nr12 = 0 ∧
     (s.write_nr52 clock_count v).nr13 = 0 ∧
     (s.write_nr52 clock_count v).nr14 = 0 ∧
     (s.write_nr52 clock_count v).nr22 = 0 ∧
     (s.write_nr52 clock_count v).nr23 = 0 ∧
     (s.write_nr52 clock_count v).nr24 = 0 ∧
     (s.write_nr52 clock_count v).nr30 = 0 ∧
     (s.write_nr52 clock_count v).nr32 = 0 ∧
     (s.write_nr52 clock_count v).nr33 = 0 ∧
     (s.write_nr52 clock_count v).nr34 = 0 ∧
     (s.write_nr52 clock_count v).nr42 = 0 ∧
     (s.write_nr52 clock_count v).nr43 = 0 ∧
     (s.write_nr52 clock_count v).nr44 = 0 ∧
     (s.write_nr52 clock_count v).nr50 = 0 ∧
     (s.write_nr52 clock_count v).nr51 = 0) ∧
    ((s.write_nr52 clock_count v).frame_sequencer_step = 0 ∧
     (s.write_nr52 clock_count v).ch1_channel_enable = false ∧
     (s.write_nr52 clock_count v).ch2_channel_enable = false ∧
     (s.write_nr52 clock_count v).ch3_channel_enable = false ∧
     (s.write_nr52 clock_count v).ch4_channel_enable = false ∧
     (s.write_nr52 clock_count v).ch1_sweep_enabled = false ∧
     (s.write_nr52 clock_count v).ch1_shadow_freq = 0 ∧
     (s.write_nr52 clock_count v).ch1_sweep_timer = 0 ∧
     (s.write_nr52 clock_count v).ch1_has_done_sweep_calculation = false ∧
     (s.write_nr52 clock_count v).ch1_frequency_timer = 0 ∧
     (s.write_nr52 clock_count v).ch1_wave_duty_position = 0 ∧
     (s.write_nr52 clock_count v).ch1_current_volume = 0 ∧
     (s.write_nr52 clock_count v).ch1_env_period_timer = 0 ∧
     (s.write_nr52 clock_count v).ch2_frequency_timer = 0 ∧
     (s.write_nr52 clock_count v).ch2_wave_duty_position = 0 ∧
     (s.write_nr52 clock_count v).ch2_current_volume = 0 ∧
     (s.write_nr52 clock_count v).ch2_env_period_timer = 0 ∧
     (s.write_nr52 clock_count v).ch3_frequency_timer = 0 ∧
     (s.write_nr52 clock_count v).ch3_wave_position = 0 ∧
     (s.write_nr52 clock_count v).ch3_sample_buffer = 0 ∧
     (s.write_nr52 clock_count v).ch3_wave_just_read = false ∧
     (s.write_nr52 clock_count v).ch4_current_volume = 0 ∧
     (s.write_nr52 clock_count v).ch4_env_period_timer = 0 ∧
     (s.write_nr52 clock_count v).ch4_lfsr = 0 ∧
     (s.write_nr52 clock_count v).ch4_frequency_timer = 0) ∧
    ((s.write_nr52 clock_count v).ch3_wave_pattern =
       (s.update clock_count).ch3_wave_pattern ∧
     (s.write_nr52 clock_count v).ch1_length_timer =
       (s.update clock_count).ch1_length_timer ∧
     (s.write_nr52 clock_count v).ch2_length_timer =
       (s.update clock_count).ch2_length_timer ∧
     (s.write_nr52 clock_count v).ch3_length_timer =
       (s.update clock_count).ch3_length_timer ∧
     (s.write_nr52 clock_count v).ch4_length_timer =
       (s.update clock_count).ch4_length_timer ∧
     (s.write_nr52 clock_count v).nr11 = (s.update clock_count).nr11 &&& 0x3F ∧
     (s.write_nr52 clock_count v).nr21 = (s.update clock_count).nr21 &&& 0x3F ∧
     (s.write_nr52 clock_count v).nr31 = (s.update clock_count).nr31 &&& 0xFF ∧
     (s.write_nr52 clock_count v).nr41 = (s.update clock_count).nr41 &&& 0x3F) ∧
    ((s.write_nr52 clock_count v).output = (s.update clock_count).output ∧
     (s.write_nr52 clock_count v).last_clock_count =
       (s.update clock_count).last_clock_count ∧
     (s.write_nr52 clock_count v).sample_frequency =
       (s.update clock_count).sample_frequency ∧
     (s.write_nr52 clock_count v).sample_mod = (s.update clock_count).sample_mod) := by
  have hu : (s.update clock_count).on' = true := by rw [update_on]; exact hon
  have hw : s.write_nr52 clock_count v =
      { SoundController.defaultState with
          on' := false
          ch3_wave_pattern := (s.update clock_count).ch3_wave_pattern
          nr11 := (s.update clock_count).nr11 &&& 0x3F
          ch1_length_timer := (s.update clock_count).ch1_length_timer
          nr21 := (s.update clock_count).nr21 &&& 0x3F
          ch2_length_timer := (s.update clock_count).ch2_length_timer
          nr31 := (s.update clock_count).nr31 &&& 0xFF
          ch3_length_timer := (s.update clock_count).ch3_length_timer
          nr41 := (s.update clock_count).nr41 &&& 0x3F
          ch4_length_timer := (s.update clock_count).ch4_length_timer
          output := (s.update clock_count).output
          last_clock_count := (s.update clock_count).last_clock_count
          sample_frequency := (s.update clock_count).sample_frequency
          sample_mod := (s.update clock_count).sample_mod } := by
    rw [SoundController.write_nr52]
    rw [if_pos ⟨hv, hu⟩]
  rw [hw]
  refine ⟨rfl, ⟨rfl, rfl, rfl, rfl, rfl, rfl, rfl, rfl, rfl, rfl, rfl, rfl, rfl, rfl, rfl, rfl⟩,
    ⟨rfl, rfl, rfl, rfl, rfl, rfl, rfl, rfl, rfl, rfl, rfl, rfl, rfl, rfl, rfl, rfl, rfl, rfl,
     rfl, rfl, rfl, rfl, rfl, rfl, rfl⟩,
    ⟨rfl, rfl, rfl, rfl, rfl, rfl, rfl, rfl, rfl⟩, rfl, rfl, rfl, rfl⟩

/-- Witness for C10: powering off a concrete running controller. -/
theorem C10_nr52_power_off_witness :
    (c10State.write_nr52 0 0).on' = false :=
  (C10_nr52_power_off c10State 0 0 (by decide) (by decide)).1

/-- C1: evaluating both update functions at the failing input
(`last_clock_count = 1`, advance to clock 2, channel 3 disabled with
`ch3_wave_just_read` still set): the optimised `update` runs its trailing
`run_timers` with 0 cycles, whose disabled-channel-3 branch clears
`ch3_wave_just_read`, while `update_ref` iterates over no even clock in
`[1, 2)` and leaves the flag set.  The two results differ on a field that
the `PartialEq` implementation compares, contradicting the claimed (and
fuzz-tested) equivalence; the emitted samples agree. -/
theorem C1_update_ref_divergence :
    (c1State.update 2).ch3_wave_just_read = false ∧
    (c1State.update_ref 2).ch3_wave_just_read = true ∧
    ¬ (c1State.update 2).peq (c1State.update_ref 2) ∧
    (c1State.update 2).output = (c1State.update_ref 2).output := by decide

set_option maxHeartbeats 1600000 in
theorem run_timers_output (s : SoundController) (a b c d e f : Nat) (g : Bool) :
    (s.run_timers a b c d e f g).output = s.output := by
  simp only [SoundController.run_timers, apply_ite (SoundController.output)]
  split_ifs <;> rfl

set_option maxHeartbeats 1600000 in
theorem run_timers_sample_frequency (s : SoundController) (a b c d e f : Nat) (g : Bool) :
    (s.run_timers a b c d e f g).sample_frequency = s.sample_frequency := by
  simp only [SoundController.run_timers, apply_ite (SoundController.sample_frequency)]
  split_ifs <;> rfl

set_option maxHeartbeats 1600000 in
theorem run_timers_sample_mod (s : SoundController) (a b c d e f : Nat) (g : Bool) :
    (s.run_timers a b c d e f g).sample_mod = s.sample_mod := by
  simp only [SoundController.run_timers, apply_ite (SoundController.sample_mod)]
  split_ifs <;> rfl

set_option maxHeartbeats 1600000 in
theorem calculate_frequency_output (s : SoundController) (sh : Nat) (dw : Bool) :
    (s.calculate_frequency sh dw).1.output = s.output := by
  simp only [SoundController.calculate_frequency, apply_ite (SoundController.output), apply_ite (Prod.fst (β := Nat))]
  split_ifs <;> rfl

set_option maxHeartbeats 1600000 in
theorem calculate_frequency_sample_frequency (s : SoundController) (sh : Nat) (dw : Bool) :
    (s.calculate_frequency sh dw).1.sample_frequency = s.sample_frequency := by
  simp only [SoundController.calculate_frequency, apply_ite (SoundController.sample_frequency), apply_ite (Prod.fst (β := Nat))]
  split_ifs <;> rfl

set_option maxHeartbeats 1600000 in
theorem calculate_frequency_sample_mod (s : SoundController) (sh : Nat) (dw : Bool) :
    (s.calculate_frequency sh dw).1.sample_mod = s.sample_mod := by
  simp only [SoundController.calculate_frequency, apply_ite (SoundController.sample_mod), apply_ite (Prod.fst (β := Nat))]
  split_ifs <;> rfl

set_option maxHeartbeats 1600000 in
theorem sweepStep_output (c : ApuConsts) (s : SoundController) (f : Nat) :
    (sweepStep c s f).1.output = s.output := by
  simp only [sweepStep, apply_ite (SoundController.output), apply_ite (Prod.fst (β := Nat))]
  split_ifs <;> simp only [calculate_frequency_output] <;> rfl

set_option maxHeartbeats 1600000 in
theorem sweepStep_sample_frequency (c : ApuConsts) (s : SoundController) (f : Nat) :
    (sweepStep c s f).1.sample_frequency = s.sample_frequency := by
  simp only [sweepStep, apply_ite (SoundController.sample_frequency), apply_ite (Prod.fst (β := Nat))]
  split_ifs <;> simp only [calculate_frequency_sample_frequency] <;> rfl

set_option maxHeartbeats 1600000 in
theorem sweepStep_sample_mod (c : ApuConsts) (s : SoundController) (f : Nat) :
    (sweepStep c s f).1.sample_mod = s.sample_mod := by
  simp only [sweepStep, apply_ite (SoundController.sample_mod), apply_ite (Prod.fst (β := Nat))]
  split_ifs <;> simp only [calculate_frequency_sample_mod] <;> rfl

set_option maxHeartbeats 1600000 in
theorem lengthCtrStep_output (s : SoundController) :
    (lengthCtrStep s).output = s.output := by
  simp only [lengthCtrStep, apply_ite (SoundController.output)]
  split_ifs <;> rfl

theorem envStep_output (c : ApuConsts) (s : SoundController) :
    (envStep c s).output = s.output := rfl

set_option maxHeartbeats 1600000 in
theorem lengthCtrStep_sample_frequency (s : SoundController) :
    (lengthCtrStep s).sample_frequency = s.sample_frequency := by
  simp only [lengthCtrStep, apply_ite (SoundController.sample_frequency)]
  split_ifs <;> rfl

theorem envStep_sample_frequency (c : ApuConsts) (s : SoundController) :
    (envStep c s).sample_frequency = s.sample_frequency := rfl

set_option maxHeartbeats 1600000 in
theorem lengthCtrStep_sample_mod (s : SoundController) :
    (lengthCtrStep s).sample_mod = s.sample_mod := by
  simp only [lengthCtrStep, apply_ite (SoundController.sample_mod)]
  split_ifs <;> rfl

theorem envStep_sample_mod (c : ApuConsts) (s : SoundController) :
    (envStep c s).sample_mod = s.sample_mod := rfl

set_option maxHeartbeats 1600000 in
theorem seqStep_output (c : ApuConsts) (s : SoundController) (f : Nat) :
    (seqStep c s f).1.output = s.output := by
  simp only [seqStep, apply_ite (SoundController.output), apply_ite (Prod.fst (β := Nat))]
  split_ifs <;> simp only [sweepStep_output, envStep_output, lengthCtrStep_output] <;> rfl

set_option maxHeartbeats 1600000 in
theorem seqStep_sample_frequency (c : ApuConsts) (s : SoundController) (f : Nat) :
    (seqStep c s f).1.sample_frequency = s.sample_frequency := by
  simp only [seqStep, apply_ite (SoundController.sample_frequency), apply_ite (Prod.fst (β := Nat))]
  split_ifs <;> simp only [sweepStep_sample_frequency, envStep_sample_frequency, lengthCtrStep_sample_frequency] <;> rfl

set_option maxHeartbeats 1600000 in
theorem seqStep_sample_mod (c : ApuConsts) (s : SoundController) (f : Nat) :
    (seqStep c s f).1.sample_mod = s.sample_mod := by
  simp only [seqStep, apply_ite (SoundController.sample_mod), apply_ite (Prod.fst (β := Nat))]
  split_ifs <;> simp only [sweepStep_sample_mod, envStep_sample_mod, lengthCtrStep_sample_mod] <;> rfl

theorem sampleBody_output (c : ApuConsts) (s : SoundController) :
    (sampleBody c s).output.length = s.output.length + 2 := by
  show (s.output ++ [_, _]).length = s.output.length + 2
  simp

theorem sampleBody_sample_frequency (c : ApuConsts) (s : SoundController) :
    (sampleBody c s).sample_frequency = s.sample_frequency := rfl

theorem sampleBody_sample_mod (c : ApuConsts) (s : SoundController) :
    (sampleBody c s).sample_mod = s.sample_mod := rfl

/-- C6 counterexample: a powered-on controller sampling at
fs = 2^20 = CLOCK_SPEED/4 with a phase-consistent `sample_mod`, advanced
from clock 0 to clock 4, emits 1 stereo pair (2 values), while the claim's
formula `⌊r·fs/fc⌋ − ⌊l·fs/fc⌋ + 1` (l = 0 is a sample point) predicts 2
pairs. -/
theorem C6_counterexample :
    (c6State.update 4).output.length = 2 ∧
    2 * (4 * 1048576 / 4194304 - 0 * 1048576 / 4194304 +
      (if 0 * 1048576 % 4194304 < 1048576 then 1 else 0)) = 4 ∧
    (2 : Nat) ≠ 4 := by decide

theorem w64_eq {n : Nat} (h : n < 2 ^ 64) : w64 n = n := by
  rw [w64]; exact Nat.mod_eq_of_lt h

theorem evenUp_facts (x : Nat) : x ≤ evenUp x ∧ evenUp x ≤ x + 1 ∧ evenUp x % 2 = 0 := by
  rw [evenUp]; split_ifs <;> omega

set_option maxHeartbeats 1600000 in
/-- `updateLoop` agrees with its arithmetic skeleton `countLoop` on the
number of appended output values, the sampling phase, and the sample
frequency: the frame-sequencer and channel-timer work does not touch any
of the three. -/
theorem updateLoop_ghost (c : ApuConsts) (cc r : Nat) :
    ∀ (fuel fs φ : Nat) (s : SoundController) (f cl lr : Nat),
      s.sample_frequency = fs → s.sample_mod = φ →
      (updateLoop c cc r fuel s f cl lr).1.output.length
          = s.output.length + (countLoop fs cc r fuel φ cl).1 ∧
      (updateLoop c cc r fuel s f cl lr).1.sample_mod = (countLoop fs cc r fuel φ cl).2 ∧
      (updateLoop c cc r fuel s f cl lr).1.sample_frequency = fs := by
  intro fuel
  induction fuel with
  | zero =>
    intro fs φ s f cl lr hfs hφ
    subst hfs; subst hφ
    exact ⟨by simp [updateLoop, countLoop], rfl, rfl⟩
  | succ fuel ih =>
    intro fs φ s f cl lr hfs hφ
    subst hfs; subst hφ
    simp only [updateLoop, countLoop]
    split_ifs
    all_goals
      first
      | exact ⟨by simp, rfl, rfl⟩
      | (refine ⟨(ih _ _ _ _ _ _ rfl rfl).1.trans ?_,
            (ih _ _ _ _ _ _ rfl rfl).2.1.trans ?_,
            (ih _ _ _ _ _ _ rfl rfl).2.2.trans ?_⟩ <;>
          simp [sampleBody_output, sampleBody_sample_frequency, sampleBody_sample_mod,
            run_timers_output, run_timers_sample_frequency, run_timers_sample_mod,
            seqStep_output, seqStep_sample_frequency, seqStep_sample_mod] <;>
          omega)

/-- The sample-event arithmetic behind `updateLoop`'s `next_sample`: from an
even clock `e` with phase `sample_mod = (e+2)·fs % fc`, the computed next
sample clock `t` is the unique even clock at which the running product
`(t+2)·fs` crosses the next multiple of `fc = CLOCK_SPEED`, and no even
clock before it crosses. -/
theorem sampleCross (fs e t : Nat) (hfs : 1 ≤ fs) (h2fs : 2 * fs ≤ CLOCK_SPEED)
    (he : e % 2 = 0)
    (ht : t = evenUp (e + (CLOCK_SPEED - (e + 2) * fs % CLOCK_SPEED + fs - 1) / fs)) :
    t % 2 = 0 ∧ e + 2 ≤ t ∧ t ≤ e + 2 ^ 23 ∧
    (t + 2) * fs / CLOCK_SPEED = (e + 2) * fs / CLOCK_SPEED + 1 ∧
    (∀ u, u % 2 = 0 → e ≤ u → u < t →
      (u + 2) * fs / CLOCK_SPEED = (e + 2) * fs / CLOCK_SPEED) := by
  have hfc : CLOCK_SPEED = 4194304 := rfl
  rw [hfc] at h2fs ht ⊢
  rw [evenUp] at ht
  have hkdm := Nat.div_add_mod (4194304 - (e + 2) * fs % 4194304 + fs - 1) fs
  have hmlt : (4194304 - (e + 2) * fs % 4194304 + fs - 1) % fs < fs :=
    Nat.mod_lt _ (by omega)
  have hρ : (e + 2) * fs % 4194304 < 4194304 := Nat.mod_lt _ (by omega)
  have hk1 : 1 ≤ (4194304 - (e + 2) * fs % 4194304 + fs - 1) / fs :=
    (Nat.one_le_div_iff (by omega)).mpr (by omega)
  have hKle : (4194304 - (e + 2) * fs % 4194304 + fs - 1) / fs
      ≤ fs * ((4194304 - (e + 2) * fs % 4194304 + fs - 1) / fs) :=
    Nat.le_mul_of_pos_left _ (by omega)
  by_cases hpar : (e + (4194304 - (e + 2) * fs % 4194304 + fs - 1) / fs) % 2 = 0
  · rw [if_pos hpar] at ht
    have hb1 : (t + 2) * fs = (e + 2) * fs + (t - e) * fs := by
      rw [← Nat.add_mul]; congr 1; omega
    have hb2 : (t - e) * fs
        = fs * ((4194304 - (e + 2) * fs % 4194304 + fs - 1) / fs) := by
      rw [show t - e = (4194304 - (e + 2) * fs % 4194304 + fs - 1) / fs from by omega]
      exact Nat.mul_comm _ _
    refine ⟨by omega, by omega, by omega, by rw [hb1, hb2]; omega, ?_⟩
    intro u hu2 hue hut
    obtain ⟨d, rfl⟩ : ∃ d, u = e + d := ⟨u - e, by omega⟩
    have hb3 : (e + d + 2) * fs = (e + 2) * fs + d * fs := by
      rw [← Nat.add_mul]; congr 1; omega
    have hdK : d * fs ≤ ((4194304 - (e + 2) * fs % 4194304 + fs - 1) / fs - 2) * fs :=
      Nat.mul_le_mul_right fs (by omega)
    have hsub : ((4194304 - (e + 2) * fs % 4194304 + fs - 1) / fs - 2) * fs
        = ((4194304 - (e + 2) * fs % 4194304 + fs - 1) / fs) * fs - 2 * fs :=
      Nat.sub_mul _ 2 fs
    have hcm : ((4194304 - (e + 2) * fs % 4194304 + fs - 1) / fs) * fs
        = fs * ((4194304 - (e + 2) * fs % 4194304 + fs - 1) / fs) := Nat.mul_comm _ _
    rw [hb3]; omega
  · rw [if_neg hpar] at ht
    have hb1 : (t + 2) * fs = (e + 2) * fs + (t - e) * fs := by
      rw [← Nat.add_mul]; congr 1; omega
    have hb2 : (t - e) * fs
        = fs * ((4194304 - (e + 2) * fs % 4194304 + fs - 1) / fs) + fs := by
      rw [show t - e = (4194304 - (e + 2) * fs % 4194304 + fs - 1) / fs + 1 from by omega]
      rw [Nat.add_mul, Nat.one_mul, Nat.mul_comm]
    refine ⟨by omega, by omega, by omega, by rw [hb1, hb2]; omega, ?_⟩
    intro u hu2 hue hut
    obtain ⟨d, rfl⟩ : ∃ d, u = e + d := ⟨u - e, by omega⟩
    have hb3 : (e + d + 2) * fs = (e + 2) * fs + d * fs := by
      rw [← Nat.add_mul]; congr 1; omega
    have hdK : d * fs ≤ ((4194304 - (e + 2) * fs % 4194304 + fs - 1) / fs - 1) * fs :=
      Nat.mul_le_mul_right fs (by omega)
    have hsub : ((4194304 - (e + 2) * fs % 4194304 + fs - 1) / fs - 1) * fs
        = ((4194304 - (e + 2) * fs % 4194304 + fs - 1) / fs) * fs - 1 * fs :=
      Nat.sub_mul _ 1 fs
    have hcm : ((4194304 - (e + 2) * fs % 4194304 + fs - 1) / fs) * fs
        = fs * ((4194304 - (e + 2) * fs % 4194304 + fs - 1) / fs) := Nat.mul_comm _ _
    rw [hb3]; omega

/-- The `next_sample` computation of `updateLoop`/`countLoop` never hits the
u64 wrap when the clock is small enough, and equals the rounded-up-to-even
ceiling-division form. -/
theorem nextSample_eq (fs e : Nat) (hfs : 1 ≤ fs) (h2fs : 2 * fs ≤ CLOCK_SPEED)
    (he : e + 2 ^ 24 ≤ 2 ^ 64) :
    w64 (w64 (e + wsub (w64 (wsub CLOCK_SPEED ((e + 2) * fs % CLOCK_SPEED) + fs)) 1 / fs)
        + (if w64 (e + wsub (w64 (wsub CLOCK_SPEED ((e + 2) * fs % CLOCK_SPEED) + fs)) 1 / fs) % 2 = 0
           then 0 else 1))
      = evenUp (e + (CLOCK_SPEED - (e + 2) * fs % CLOCK_SPEED + fs - 1) / fs) := by
  have hfc : CLOCK_SPEED = 4194304 := rfl
  rw [hfc] at h2fs ⊢
  have hρ : (e + 2) * fs % 4194304 < 4194304 := Nat.mod_lt _ (by omega)
  rw [wsub_eq_sub (Nat.le_of_lt hρ) (by omega)]
  rw [w64_eq (show 4194304 - (e + 2) * fs % 4194304 + fs < 2 ^ 64 from by omega)]
  rw [wsub_eq_sub (show 1 ≤ 4194304 - (e + 2) * fs % 4194304 + fs from by omega)
    (by omega)]
  have hds := Nat.div_le_self (4194304 - (e + 2) * fs % 4194304 + fs - 1) fs
  rw [w64_eq (show e + (4194304 - (e + 2) * fs % 4194304 + fs - 1) / fs < 2 ^ 64 from by
    omega)]
  rw [← evenUp]
  refine w64_eq ?_
  obtain ⟨g1, g2, g3⟩ :=
    evenUp_facts (e + (4194304 - (e + 2) * fs % 4194304 + fs - 1) / fs)
  omega

set_option maxHeartbeats 1600000 in
/-- The arithmetic loop `countLoop`, started at an even clock `e < cc`
with the consistent phase `(e+2)*fs % fc` and enough fuel, counts exactly
the phase crossings up to `evenUp cc`: two output values per crossing. -/
theorem countLoop_count (fs cc r : Nat) (hfs : 1 ≤ fs) (h2fs : 2 * fs ≤ CLOCK_SPEED)
    (hcc : cc + 2 ^ 24 ≤ 2 ^ 64) :
    ∀ (fuel e : Nat), e % 2 = 0 → e < cc → (cc - e) / 2 + 1 ≤ fuel →
    (countLoop fs cc r fuel ((e + 2) * fs % CLOCK_SPEED) e).1
      = 2 * (evenUp cc * fs / CLOCK_SPEED - (e + 2) * fs / CLOCK_SPEED) := by
  intro fuel
  induction fuel with
  | zero => intro e he hlt hfuel; exact absurd hfuel (by omega)
  | succ fuel ih =>
    intro e he hlt hfuel
    have hfc : CLOCK_SPEED = 4194304 := rfl
    have hfs0 : ¬ fs = 0 := by omega
    simp only [countLoop]
    rw [if_neg hfs0]
    rw [nextSample_eq fs e hfs h2fs (by omega)]
    rw [show CLOCK_SPEED / 512 = 8192 from rfl]
    rw [w64_eq (show 8192 * (1 + e / 8192) < 2 ^ 64 from by omega)]
    obtain ⟨ht2, hte, htb, hcross, hbefore⟩ :=
      sampleCross fs e
        (evenUp (e + (CLOCK_SPEED - (e + 2) * fs % CLOCK_SPEED + fs - 1) / fs))
        hfs h2fs he rfl
    have hN2 : (8192 * (1 + e / 8192)) % 2 = 0 := by omega
    have hNgt : e < 8192 * (1 + e / 8192) := by omega
    have hNle : 8192 * (1 + e / 8192) ≤ e + 8192 := by omega
    rw [apply_ite (Prod.fst (β := Nat))]
    by_cases hexit :
        min (8192 * (1 + e / 8192))
          (evenUp (e + (CLOCK_SPEED - (e + 2) * fs % CLOCK_SPEED + fs - 1) / fs)) ≥ cc
    · rw [if_pos hexit]
      obtain ⟨hg1, hg2, hg3⟩ := evenUp_facts cc
      have hu := hbefore (evenUp cc - 2) (by omega) (by omega) (by omega)
      rw [show evenUp cc - 2 + 2 = evenUp cc from by omega] at hu
      rw [hfc] at hu ⊢
      omega
    · rw [if_neg hexit]
      have hde : wsub
          (min (8192 * (1 + e / 8192))
            (evenUp (e + (CLOCK_SPEED - (e + 2) * fs % CLOCK_SPEED + fs - 1) / fs))) e
          = min (8192 * (1 + e / 8192))
              (evenUp (e + (CLOCK_SPEED - (e + 2) * fs % CLOCK_SPEED + fs - 1) / fs)) - e :=
        wsub_eq_sub (by omega) (by omega)
      rw [hde]
      have hfsb : fs ≤ 2 ^ 21 := by rw [hfc] at h2fs; omega
      have hprod := Nat.mul_le_mul
        (show min (8192 * (1 + e / 8192))
            (evenUp (e + (CLOCK_SPEED - (e + 2) * fs % CLOCK_SPEED + fs - 1) / fs)) - e
          ≤ 2 ^ 23 from by omega) hfsb
      rw [w64_eq (show
        (min (8192 * (1 + e / 8192))
          (evenUp (e + (CLOCK_SPEED - (e + 2) * fs % CLOCK_SPEED + fs - 1) / fs)) - e) * fs
          < 2 ^ 64 from by omega)]
      rw [Nat.mod_add_mod]
      rw [show (e + 2) * fs
          + (min (8192 * (1 + e / 8192))
              (evenUp (e + (CLOCK_SPEED - (e + 2) * fs % CLOCK_SPEED + fs - 1) / fs)) - e) * fs
        = (min (8192 * (1 + e / 8192))
            (evenUp (e + (CLOCK_SPEED - (e + 2) * fs % CLOCK_SPEED + fs - 1) / fs)) + 2) * fs
        from by rw [← Nat.add_mul]; congr 1; omega]
      rw [ih _ (by omega) (by omega) (by omega)]
      by_cases hsam :
          evenUp (e + (CLOCK_SPEED - (e + 2) * fs % CLOCK_SPEED + fs - 1) / fs)
            = min (8192 * (1 + e / 8192))
                (evenUp (e + (CLOCK_SPEED - (e + 2) * fs % CLOCK_SPEED + fs - 1) / fs))
      · rw [if_pos hsam, ← hsam]
        obtain ⟨hg1, hg2, hg3⟩ := evenUp_facts cc
        have hTcc :
            evenUp (e + (CLOCK_SPEED - (e + 2) * fs % CLOCK_SPEED + fs - 1) / fs) < cc := by
          omega
        have hTE : evenUp (e + (CLOCK_SPEED - (e + 2) * fs % CLOCK_SPEED + fs - 1) / fs) + 2
            ≤ evenUp cc := by omega
        have hmono2 :
            (evenUp (e + (CLOCK_SPEED - (e + 2) * fs % CLOCK_SPEED + fs - 1) / fs) + 2) * fs
                / CLOCK_SPEED
              ≤ evenUp cc * fs / CLOCK_SPEED :=
          Nat.div_le_div_right (Nat.mul_le_mul_right fs hTE)
        rw [hfc] at hcross hmono2 ⊢
        omega
      · rw [if_neg hsam]
        have hu := hbefore (8192 * (1 + e / 8192)) hN2 (by omega) (by omega)
        rw [show min (8192 * (1 + e / 8192))
            (evenUp (e + (CLOCK_SPEED - (e + 2) * fs % CLOCK_SPEED + fs - 1) / fs))
          = 8192 * (1 + e / 8192) from by omega]
        rw [hfc] at hu ⊢
        omega

theorem ite_run_timers_output (P : Prop) [inst : Decidable P] (x : SoundController)
    (a b c d e f : Nat) (g : Bool) :
    (if P then x.run_timers a b c d e f g else x).output = x.output := by
  split_ifs with h
  · exact run_timers_output x a b c d e f g
  · rfl

/-- The power-off branch `updateOff` appends exactly
`2·(⌊cc·fs/fc⌋ − ⌊l·fs/fc⌋ + [l·fs mod fc < fs])` zero values: the anchor
subtraction (`last_clock_count` rounded down to a multiple of `fc`) cancels
out of the sample-point count. -/
theorem updateOff_length (s : SoundController) (cc : Nat) (hfs : 1 ≤ s.sample_frequency)
    (hl : s.last_clock_count ≤ cc) (hcc : cc < 2 ^ 64)
    (hov : (s.last_clock_count % CLOCK_SPEED + (cc - s.last_clock_count)) * s.sample_frequency
      < 2 ^ 64) :
    (updateOff s cc).output.length = s.output.length +
      2 * (cc * s.sample_frequency / CLOCK_SPEED
         - s.last_clock_count * s.sample_frequency / CLOCK_SPEED
         + (if s.last_clock_count * s.sample_frequency % CLOCK_SPEED < s.sample_frequency
            then 1 else 0)) := by
  have hfc : CLOCK_SPEED = 4194304 := rfl
  have hne : s.sample_frequency ≠ 0 := by omega
  simp only [updateOff]
  rw [if_pos hne]
  simp only [List.length_append, List.length_replicate]
  rw [hfc] at hov ⊢
  rw [wsub_eq_sub (show s.last_clock_count - s.last_clock_count % 4194304 ≤ cc from by omega)
    hcc]
  rw [show s.last_clock_count - (s.last_clock_count - s.last_clock_count % 4194304)
      = s.last_clock_count % 4194304 from by omega]
  rw [show cc - (s.last_clock_count - s.last_clock_count % 4194304)
      = s.last_clock_count % 4194304 + (cc - s.last_clock_count) from by omega]
  rw [w64_eq hov]
  have hmul1 : s.last_clock_count % 4194304 * s.sample_frequency
      ≤ (s.last_clock_count % 4194304 + (cc - s.last_clock_count)) * s.sample_frequency :=
    Nat.mul_le_mul_right _ (by omega)
  rw [w64_eq (show s.last_clock_count % 4194304 * s.sample_frequency < 2 ^ 64 from by omega)]
  have hdivle : s.last_clock_count % 4194304 * s.sample_frequency / 4194304
      ≤ (s.last_clock_count % 4194304 + (cc - s.last_clock_count)) * s.sample_frequency
          / 4194304 :=
    Nat.div_le_div_right hmul1
  have hAle := Nat.div_le_self
    ((s.last_clock_count % 4194304 + (cc - s.last_clock_count)) * s.sample_frequency) 4194304
  rw [wsub_eq_sub hdivle (by omega)]
  have hsplitL : s.last_clock_count * s.sample_frequency
      = 4194304 * (s.last_clock_count / 4194304 * s.sample_frequency)
        + s.last_clock_count % 4194304 * s.sample_frequency := by
    rw [← Nat.mul_assoc, ← Nat.add_mul]; congr 1; omega
  have hmodL : s.last_clock_count % 4194304 * s.sample_frequency % 4194304
      = s.last_clock_count * s.sample_frequency % 4194304 := by
    rw [hsplitL, Nat.mul_add_mod]
  rw [← hmodL]
  have hAdec : (s.last_clock_count % 4194304 + (cc - s.last_clock_count)) * s.sample_frequency
      = (cc - 4194304 * (s.last_clock_count / 4194304)) * s.sample_frequency := by
    congr 1; omega
  have hAdec2 : (cc - 4194304 * (s.last_clock_count / 4194304)) * s.sample_frequency
      = cc * s.sample_frequency
        - 4194304 * (s.last_clock_count / 4194304) * s.sample_frequency :=
    Nat.sub_mul _ _ _
  have hassoc : 4194304 * (s.last_clock_count / 4194304) * s.sample_frequency
      = 4194304 * (s.last_clock_count / 4194304 * s.sample_frequency) := Nat.mul_assoc _ _ _
  have hYX : s.last_clock_count * s.sample_frequency ≤ cc * s.sample_frequency :=
    Nat.mul_le_mul_right _ hl
  rcases Nat.lt_or_ge (s.last_clock_count % 4194304 * s.sample_frequency % 4194304)
      s.sample_frequency with hind | hind
  · rw [if_pos hind]
    rw [w64_eq (show
      (s.last_clock_count % 4194304 + (cc - s.last_clock_count)) * s.sample_frequency / 4194304
        - s.last_clock_count % 4194304 * s.sample_frequency / 4194304 + 1 < 2 ^ 64 from by
      omega)]
    rw [w64_eq (show 2 *
      ((s.last_clock_count % 4194304 + (cc - s.last_clock_count)) * s.sample_frequency / 4194304
        - s.last_clock_count % 4194304 * s.sample_frequency / 4194304 + 1) < 2 ^ 64 from by
      omega)]
    omega
  · rw [if_neg (show ¬ s.last_clock_count % 4194304 * s.sample_frequency % 4194304
        < s.sample_frequency from by omega)]
    rw [w64_eq (show
      (s.last_clock_count % 4194304 + (cc - s.last_clock_count)) * s.sample_frequency / 4194304
        - s.last_clock_count % 4194304 * s.sample_frequency / 4194304 + 0 < 2 ^ 64 from by
      omega)]
    rw [w64_eq (show 2 *
      ((s.last_clock_count % 4194304 + (cc - s.last_clock_count)) * s.sample_frequency / 4194304
        - s.last_clock_count % 4194304 * s.sample_frequency / 4194304 + 0) < 2 ^ 64 from by
      omega)]
    omega

set_option maxHeartbeats 1600000 in
/-- C6 (amended): for a call `SoundController::update(r)` with
`l = last_clock_count < r` and sample frequency `fs ≥ 1`, the number of
output values appended is: powered off, `2·(⌊r·fs/fc⌋ − ⌊l·fs/fc⌋ + 1 if
l·fs mod fc < fs)` (the claimed formula, two values per stereo pair);
powered on, `2·(⌊r₂·fs/fc⌋ − ⌊l₂·fs/fc⌋)` where `l₂`/`r₂` round `l`/`r` up
to even clocks — assuming `2·fs ≤ fc`, a phase `sample_mod` consistent
with `l` (`sample_mod = l₂·fs mod fc`), `2 ≤ l`, and clocks/products far
from the u64 wrap. -/
theorem C6_sample_count (s : SoundController) (cc : Nat)
    (h1 : s.last_clock_count < cc)
    (h2 : 2 ≤ s.last_clock_count)
    (hcc : cc + 2 ^ 24 ≤ 2 ^ 64)
    (hfs : 1 ≤ s.sample_frequency)
    (h2fs : 2 * s.sample_frequency ≤ CLOCK_SPEED)
    (hov : (s.last_clock_count % CLOCK_SPEED + (cc - s.last_clock_count)) * s.sample_frequency
      < 2 ^ 64)
    (hφ : s.on' = true →
      s.sample_mod = evenUp s.last_clock_count * s.sample_frequency % CLOCK_SPEED) :
    (s.update cc).output.length = s.output.length +
      (if s.on' then
        2 * (evenUp cc * s.sample_frequency / CLOCK_SPEED
           - evenUp s.last_clock_count * s.sample_frequency / CLOCK_SPEED)
      else
        2 * (cc * s.sample_frequency / CLOCK_SPEED
           - s.last_clock_count * s.sample_frequency / CLOCK_SPEED
           + (if s.last_clock_count * s.sample_frequency % CLOCK_SPEED < s.sample_frequency
              then 1 else 0))) := by
  by_cases hon : s.on' = true
  · rw [if_pos hon]
    simp only [SoundController.update]
    rw [if_neg (show ¬ cc ≤ s.last_clock_count from by omega)]
    rw [if_neg (show ¬ ¬ s.on' = true from fun h => h hon)]
    have hEc : w64 (cc + (if cc % 2 = 0 then 0 else 1)) = evenUp cc := by
      show w64 (evenUp cc) = evenUp cc
      obtain ⟨g1, g2, g3⟩ := evenUp_facts cc
      exact w64_eq (by omega)
    have hEl : wsub (w64 (s.last_clock_count
          + (if s.last_clock_count % 2 = 0 then 0 else 1))) 2
        = evenUp s.last_clock_count - 2 := by
      obtain ⟨g1, g2, g3⟩ := evenUp_facts s.last_clock_count
      rw [show w64 (s.last_clock_count + (if s.last_clock_count % 2 = 0 then 0 else 1))
          = evenUp s.last_clock_count from w64_eq (by split_ifs <;> omega)]
      exact wsub_eq_sub (by omega) (by omega)
    rw [hEc, hEl]
    simp only [ite_run_timers_output]
    obtain ⟨g1, g2, g3⟩ := updateLoop_ghost (apuConsts s) cc (evenUp cc)
      ((cc - s.last_clock_count) / 2 + 3) s.sample_frequency s.sample_mod s
      (u16_be s.nr14 s.nr13 &&& 0x07FF) (evenUp s.last_clock_count - 2)
      (evenUp s.last_clock_count - 2) rfl rfl
    rw [g1]
    rw [hφ hon]
    rw [show evenUp s.last_clock_count * s.sample_frequency % CLOCK_SPEED
        = (evenUp s.last_clock_count - 2 + 2) * s.sample_frequency % CLOCK_SPEED from by
      rw [show evenUp s.last_clock_count - 2 + 2 = evenUp s.last_clock_count from by
        obtain ⟨k1, k2, k3⟩ := evenUp_facts s.last_clock_count; omega]]
    rw [countLoop_count s.sample_frequency cc (evenUp cc) hfs h2fs hcc
      ((cc - s.last_clock_count) / 2 + 3) (evenUp s.last_clock_count - 2)
      (by obtain ⟨k1, k2, k3⟩ := evenUp_facts s.last_clock_count; omega)
      (by obtain ⟨k1, k2, k3⟩ := evenUp_facts s.last_clock_count; omega)
      (by obtain ⟨k1, k2, k3⟩ := evenUp_facts s.last_clock_count; omega)]
    rw [show evenUp s.last_clock_count - 2 + 2 = evenUp s.last_clock_count from by
      obtain ⟨k1, k2, k3⟩ := evenUp_facts s.last_clock_count; omega]
  · rw [if_neg hon]
    simp only [SoundController.update]
    rw [if_neg (show ¬ cc ≤ s.last_clock_count from by omega)]
    rw [if_pos (show ¬ s.on' = true from hon)]
    exact updateOff_length s cc hfs (Nat.le_of_lt h1) (by omega) hov

theorem C6_sample_count_witness : (c6OnState.update 4).output.length = 2 :=
  (C6_sample_count c6OnState 4 (by decide) (by decide) (by decide) (by decide) (by decide)
    (by decide) (by decide)).trans (by decide)
